import Mathlib

/-!
# compGraphics: matrix library, sphere tessellator, scene state, frame loop, Bezier editor

A shallow embedding of `ComputerGraphics_Assignment3_CCGXNL/Source.cpp` and of the mouse
callbacks of `ComputerGraphics_BZCurve_CCGXNL/Source.cpp`.

* `float` cells are elements of an arbitrary field `K` (instantiated at `ℚ` for
  evaluation and at `ℝ` for the statements about square roots and trigonometry).
* `sqrt`, `cosf`, `sinf`, `tanf` are library functions of the C runtime; the
  definitions take them as arguments, the theorems pass `Real.sqrt`, `Real.cos`,
  `Real.sin`, `Real.tan`.
* A `float*` that points to 16 cells is a `Mat4 K` (read `m.cell i`, write `m.set i v`);
  an out-parameter is passed in with its previous content and the updated buffer is
  returned.
* `int` is `Int` (no wrap-around: the segment counts of the claims are far below
  `2^31`), `std::vector<float>` is `List K`.
-/

namespace CompGraphics

/-- A buffer of 16 cells (`float m[16]`). -/
@[ext]
structure Mat4 (K : Type) where
  cell : Fin 16 → K

/-- The assignment `m[i] = v`. -/
def Mat4.set {K : Type} (m : Mat4 K) (i : Fin 16) (v : K) : Mat4 K :=
  ⟨Function.update m.cell i v⟩

/-- The cell index `a * 4 + b` for `a b < 4`, as used by `multiplyMatrices`. -/
def idx4 (a b : Fin 4) : Fin 16 := ⟨a.val * 4 + b.val, by omega⟩

section MatrixLibrary

variable {K : Type} [Field K]

/-- `for (int i = 0; i < 16; ++i) matrix[i] = (i % 5 == 0) ? 1.0f : 0.0f;` -/
def createIdentityMatrix (matrix : Mat4 K) : Mat4 K :=
  (List.finRange 16).foldl
    (fun m i => m.set i (if i.val % 5 = 0 then (1 : K) else 0)) matrix

/-- `createIdentityMatrix(matrix); matrix[12] = x; matrix[13] = y; matrix[14] = z;` -/
def createTranslationMatrix (matrix : Mat4 K) (x y z : K) : Mat4 K :=
  let m0 := createIdentityMatrix matrix
  let m1 := m0.set 12 x
  let m2 := m1.set 13 y
  m2.set 14 z

/-- `memcpy(result, temp, 16 * sizeof(float))`. -/
def memcpy16 (dst src : Mat4 K) : Mat4 K :=
  (List.finRange 16).foldl (fun d i => d.set i (src.cell i)) dst

/-- The triple loop of `multiplyMatrices` on `temp`:
`temp[row * 4 + col] += first[row * 4 + k] * second[k * 4 + col]`. -/
def multiplyLoop (first second : Mat4 K) (temp : Mat4 K) : Mat4 K :=
  (List.finRange 4).foldl (fun t0 row =>
    (List.finRange 4).foldl (fun t1 col =>
      (List.finRange 4).foldl (fun t2 k =>
        t2.set (idx4 row col)
          (t2.cell (idx4 row col)
            + first.cell (idx4 row k) * second.cell (idx4 k col))) t1) t0) temp

/-- `float temp[16] = { 0 };` then the triple loop, then `memcpy` into `result`.
`first` and `second` are read before `result` is written, so `result` may be the
buffer of `first`. -/
def multiplyMatrices (result first second : Mat4 K) : Mat4 K :=
  let temp : Mat4 K := ⟨fun _ => 0⟩
  memcpy16 result (multiplyLoop first second temp)

/-- `createIdentityMatrix(matrix); matrix[0] = x; matrix[5] = y; matrix[10] = z;` -/
def createScalingMatrix (matrix : Mat4 K) (x y z : K) : Mat4 K :=
  let m0 := createIdentityMatrix matrix
  let m1 := m0.set 0 x
  let m2 := m1.set 5 y
  m2.set 10 z

/-- The perspective matrix; `tanf` is the C library tangent. -/
def createProjectionMatrix (tanf : K → K) (matrix : Mat4 K)
    (fov aspectRatio nearPlane farPlane : K) : Mat4 K :=
  let tanHalfFOV := 1 / tanf (fov / 2)
  let m0 := (List.finRange 16).foldl (fun m i => m.set i (0 : K)) matrix
  let m1 := m0.set 0 (tanHalfFOV / aspectRatio)
  let m2 := m1.set 5 tanHalfFOV
  let m3 := m2.set 10 ((farPlane + nearPlane) / (nearPlane - farPlane))
  let m4 := m3.set 11 (-1)
  m4.set 14 ((2 * farPlane * nearPlane) / (nearPlane - farPlane))

/-- The look-at matrix; `sqrt` is the C library square root. -/
def createViewMatrix (sqrt : K → K) (matrix : Mat4 K)
    (eyeX eyeY eyeZ centerX centerY centerZ upX upY upZ : K) : Mat4 K :=
  let f0 := centerX - eyeX
  let f1 := centerY - eyeY
  let f2 := centerZ - eyeZ
  let forwardLength := sqrt (f0 * f0 + f1 * f1 + f2 * f2)
  let forward0 := f0 / forwardLength
  let forward1 := f1 / forwardLength
  let forward2 := f2 / forwardLength
  let r0 := forward1 * upZ - forward2 * upY
  let r1 := forward2 * upX - forward0 * upZ
  let r2 := forward0 * upY - forward1 * upX
  let rightLength := sqrt (r0 * r0 + r1 * r1 + r2 * r2)
  let right0 := r0 / rightLength
  let right1 := r1 / rightLength
  let right2 := r2 / rightLength
  let correctedUp0 := right1 * forward2 - right2 * forward1
  let correctedUp1 := right2 * forward0 - right0 * forward2
  let correctedUp2 := right0 * forward1 - right1 * forward0
  let m := createIdentityMatrix matrix
  let m := m.set 0 right0
  let m := m.set 4 right1
  let m := m.set 8 right2
  let m := m.set 1 correctedUp0
  let m := m.set 5 correctedUp1
  let m := m.set 9 correctedUp2
  let m := m.set 2 (-forward0)
  let m := m.set 6 (-forward1)
  let m := m.set 10 (-forward2)
  let m := m.set 12 (-right0 * eyeX - right1 * eyeY - right2 * eyeZ)
  let m := m.set 13
    (-correctedUp0 * eyeX - correctedUp1 * eyeY - correctedUp2 * eyeZ)
  m.set 14 (forward0 * eyeX + forward1 * eyeY + forward2 * eyeZ)

/-- The normalised `forward[3]` array of `createViewMatrix`. -/
def viewForward (sqrt : K → K) (eyeX eyeY eyeZ centerX centerY centerZ : K) : K × K × K :=
  let f0 := centerX - eyeX
  let f1 := centerY - eyeY
  let f2 := centerZ - eyeZ
  let forwardLength := sqrt (f0 * f0 + f1 * f1 + f2 * f2)
  (f0 / forwardLength, f1 / forwardLength, f2 / forwardLength)

/-- The value of `forwardLength` in `createViewMatrix`. -/
def viewForwardLength (sqrt : K → K) (eyeX eyeY eyeZ centerX centerY centerZ : K) : K :=
  let f0 := centerX - eyeX
  let f1 := centerY - eyeY
  let f2 := centerZ - eyeZ
  sqrt (f0 * f0 + f1 * f1 + f2 * f2)

/-- The value of `rightLength` in `createViewMatrix`. -/
def viewRightLength (sqrt : K → K)
    (eyeX eyeY eyeZ centerX centerY centerZ upX upY upZ : K) : K :=
  let forward := viewForward sqrt eyeX eyeY eyeZ centerX centerY centerZ
  let r0 := forward.2.1 * upZ - forward.2.2 * upY
  let r1 := forward.2.2 * upX - forward.1 * upZ
  let r2 := forward.1 * upY - forward.2.1 * upX
  sqrt (r0 * r0 + r1 * r1 + r2 * r2)

/-- The normalised `right[3]` array of `createViewMatrix`. -/
def viewRight (sqrt : K → K) (eyeX eyeY eyeZ centerX centerY centerZ upX upY upZ : K) :
    K × K × K :=
  let forward := viewForward sqrt eyeX eyeY eyeZ centerX centerY centerZ
  let r0 := forward.2.1 * upZ - forward.2.2 * upY
  let r1 := forward.2.2 * upX - forward.1 * upZ
  let r2 := forward.1 * upY - forward.2.1 * upX
  let rightLength := sqrt (r0 * r0 + r1 * r1 + r2 * r2)
  (r0 / rightLength, r1 / rightLength, r2 / rightLength)

/-- The `correctedUp[3]` array of `createViewMatrix`. -/
def viewCorrectedUp (sqrt : K → K)
    (eyeX eyeY eyeZ centerX centerY centerZ upX upY upZ : K) : K × K × K :=
  let forward := viewForward sqrt eyeX eyeY eyeZ centerX centerY centerZ
  let right := viewRight sqrt eyeX eyeY eyeZ centerX centerY centerZ upX upY upZ
  (right.2.1 * forward.2.2 - right.2.2 * forward.2.1,
   right.2.2 * forward.1 - right.1 * forward.2.2,
   right.1 * forward.2.1 - right.2.1 * forward.1)

/-- The product `matrix * vec4` of the vertex shader for a matrix uploaded with
`transpose = GL_FALSE`: cell `row + col * 4` is the entry in row `row`, column `col`. -/
def applyMatrix (m : Mat4 K) (v : Fin 4 → K) : Fin 4 → K :=
  fun row => m.cell (idx4 0 row) * v 0 + m.cell (idx4 1 row) * v 1
    + m.cell (idx4 2 row) * v 2 + m.cell (idx4 3 row) * v 3

/-- The homogeneous point `vec4(x, y, z, 1.0)`. -/
def point4 (x y z : K) : Fin 4 → K := ![x, y, z, 1]

/-- The accumulation `t[c] += s` as a function of the buffer. -/
def addAt (t : Mat4 K) (c : Fin 16) (s : K) : Mat4 K :=
  t.set c (t.cell c + s)

end MatrixLibrary

section SphereTessellator

variable {K : Type} [Field K]

/-- `vertexBuffer.insert(vertexBuffer.end(), { x, y, z, nx, ny, nz, s, t });` -/
def appendVertexData (vertexBuffer : List K) (x y z nx ny nz s t : K) : List K :=
  vertexBuffer ++ [x, y, z, nx, ny, nz, s, t]

/-- `const float PI = 3.1415926f;` -/
def PI : K := 31415926 / 10000000

/-- `static_cast<unsigned int>` of an `int` that is never negative where it is cast. -/
def toUnsigned (x : Int) : Nat := x.toNat

/-- The first loop nest of `generateSphereGeometry`: the grid `tempVertices`, 8 floats per
vertex, rows `latitude = 0 .. latitudeSegments`, columns `longitude = 0 .. longitudeSegments`. -/
def sphereGridVertices (cosf sinf : K → K) (radius : K)
    (longitudeSegments latitudeSegments : Int) : List K :=
  let longitudeStep : K := 2 * PI / (longitudeSegments : K)
  let latitudeStep : K := PI / (latitudeSegments : K)
  (List.range (latitudeSegments + 1).toNat).foldl
    (fun (tempVertices : List K) (latitude : Nat) =>
    let verticalAngle : K := PI / 2 - (latitude : K) * latitudeStep
    let xy := radius * cosf verticalAngle
    let z := radius * sinf verticalAngle
    (List.range (longitudeSegments + 1).toNat).foldl
      (fun (tempVertices : List K) (longitude : Nat) =>
      let horizontalAngle : K := (longitude : K) * longitudeStep
      let x := xy * cosf horizontalAngle
      let y := xy * sinf horizontalAngle
      let normalX := x / radius
      let normalY := y / radius
      let normalZ := z / radius
      let u : K := (longitude : K) / (longitudeSegments : K)
      let v : K := (latitude : K) / (latitudeSegments : K)
      appendVertexData tempVertices x y z normalX normalY normalZ u v) tempVertices) []

/-- The body of the inner index loop for one grid cell: the state is
`(indices, currentRow, nextRow)`; the upper triangle is appended unless `latitude == 0`, the
lower one unless `latitude == latitudeSegments - 1`, then `currentRow++; nextRow++`. -/
def sphereIndexStep (latitudeSegments : Int) (latitude : Nat)
    (st : List Nat × Int × Int) : List Nat × Int × Int :=
  let indices := st.1
  let currentRow := st.2.1
  let nextRow := st.2.2
  let indices :=
    if (latitude : Int) ≠ 0 then
      indices ++ [toUnsigned currentRow, toUnsigned nextRow, toUnsigned (currentRow + 1)]
    else indices
  let indices :=
    if (latitude : Int) ≠ latitudeSegments - 1 then
      indices ++ [toUnsigned (currentRow + 1), toUnsigned nextRow, toUnsigned (nextRow + 1)]
    else indices
  (indices, currentRow + 1, nextRow + 1)

/-- The second loop nest of `generateSphereGeometry`: the triangle-index list. -/
def sphereIndices (longitudeSegments latitudeSegments : Int) : List Nat :=
  (List.range latitudeSegments.toNat).foldl (fun (indices : List Nat) (latitude : Nat) =>
    let currentRow : Int := (latitude : Int) * (longitudeSegments + 1)
    let nextRow : Int := currentRow + longitudeSegments + 1
    ((List.range longitudeSegments.toNat).foldl
      (fun st (_longitude : Nat) => sphereIndexStep latitudeSegments latitude st)
      (indices, currentRow, nextRow)).1) []

/-- The expansion loop: for each index the floats `[index * 8, (index + 1) * 8)` of
`tempVertices` are appended to `finalVertices`. -/
def expandIndices (tempVertices : List K) (indices : List Nat) : List K :=
  indices.foldl (fun finalVertices index =>
    finalVertices ++ (tempVertices.drop (index * 8)).take 8) []

/-- The whole of `generateSphereGeometry`; `vertexBuffer = finalVertices` overwrites the
out-parameter. -/
def generateSphereGeometry (cosf sinf : K → K) (radius : K)
    (longitudeSegments latitudeSegments : Int) (_vertexBuffer : List K) : List K :=
  let tempVertices := sphereGridVertices cosf sinf radius longitudeSegments latitudeSegments
  let indices := sphereIndices longitudeSegments latitudeSegments
  expandIndices tempVertices indices

/-- The 8 floats that the first loop nest appends for the grid point
`(latitude, longitude)`: position, normal, texture coordinate. -/
def gridVertex (cosf sinf : K → K) (radius : K) (longitudeSegments latitudeSegments : Int)
    (latitude longitude : Nat) : List K :=
  let longitudeStep : K := 2 * PI / (longitudeSegments : K)
  let latitudeStep : K := PI / (latitudeSegments : K)
  let verticalAngle : K := PI / 2 - (latitude : K) * latitudeStep
  let xy := radius * cosf verticalAngle
  let z := radius * sinf verticalAngle
  let horizontalAngle : K := (longitude : K) * longitudeStep
  let x := xy * cosf horizontalAngle
  let y := xy * sinf horizontalAngle
  [x, y, z, x / radius, y / radius, z / radius,
    (longitude : K) / (longitudeSegments : K), (latitude : K) / (latitudeSegments : K)]

/-- The indices that one run of the inner index loop body appends, given the values of
`currentRow` and `nextRow` at that point. -/
def stepTriangles (latitudeSegments : Int) (latitude : Nat) (currentRow nextRow : Int) :
    List Nat :=
  (if (latitude : Int) ≠ 0 then
      [toUnsigned currentRow, toUnsigned nextRow, toUnsigned (currentRow + 1)]
    else [])
  ++ (if (latitude : Int) ≠ latitudeSegments - 1 then
      [toUnsigned (currentRow + 1), toUnsigned nextRow, toUnsigned (nextRow + 1)]
    else [])

/-- The grid as a list of vertex records, row by row. -/
def gridChunks (cosf sinf : K → K) (radius : K) (longitudeSegments latitudeSegments : Int) :
    List (List K) :=
  (List.range (latitudeSegments + 1).toNat).flatMap (fun latitude =>
    (List.range (longitudeSegments + 1).toNat).map (fun longitude =>
      gridVertex cosf sinf radius longitudeSegments latitudeSegments latitude longitude))

/-- The output as a list of vertex records: for each triangle index the grid record it
names (empty if the index were out of range). -/
def outputChunks (cosf sinf : K → K) (radius : K) (longitudeSegments latitudeSegments : Int) :
    List (List K) :=
  (sphereIndices longitudeSegments latitudeSegments).map (fun index =>
    ((gridChunks cosf sinf radius longitudeSegments latitudeSegments)[index]?).getD [])

/-- The number of vertices of a float buffer, `sphereVertices.size() / 8`. -/
def vertexCount (vertexBuffer : List K) : Nat := vertexBuffer.length / 8

/-- The `j`-th vertex record (8 floats) of a vertex buffer. -/
def vertexAt (vertexBuffer : List K) (j : Nat) : List K :=
  (vertexBuffer.drop (j * 8)).take 8

end SphereTessellator

section SceneStateAndInput

variable {K : Type} [Field K]

/-- The global camera and lighting state. -/
structure SceneState (K : Type) where
  cameraOrbitAngle : K
  currentCameraHeight : K
  isLightEnabled : Bool
  shouldUseMagentaMaterial : Bool
  lightOrbitAngle : K

/-- The initialisers of the globals. -/
def initialSceneState : SceneState K :=
  { cameraOrbitAngle := 0
    currentCameraHeight := 2
    isLightEnabled := true
    shouldUseMagentaMaterial := false
    lightOrbitAngle := 0 }

/-- Value of `GLFW_RELEASE` in `GLFW/glfw3.h`. -/
def GLFW_RELEASE : Int := 0
/-- Value of `GLFW_PRESS` in `GLFW/glfw3.h`. -/
def GLFW_PRESS : Int := 1
/-- Value of `GLFW_REPEAT` in `GLFW/glfw3.h`. -/
def GLFW_REPEAT : Int := 2
/-- Value of `GLFW_KEY_L` in `GLFW/glfw3.h`. -/
def GLFW_KEY_L : Int := 76
/-- Value of `GLFW_KEY_M` in `GLFW/glfw3.h`. -/
def GLFW_KEY_M : Int := 77
/-- Value of `GLFW_KEY_RIGHT` in `GLFW/glfw3.h`. -/
def GLFW_KEY_RIGHT : Int := 262
/-- Value of `GLFW_KEY_LEFT` in `GLFW/glfw3.h`. -/
def GLFW_KEY_LEFT : Int := 263

/-- The key callback: the `switch` on `key` runs only for `GLFW_PRESS` and `GLFW_REPEAT`. -/
def handleKeyboardInput (s : SceneState K) (key action : Int) : SceneState K :=
  if action = GLFW_PRESS ∨ action = GLFW_REPEAT then
    if key = GLFW_KEY_LEFT then { s with cameraOrbitAngle := s.cameraOrbitAngle - 1 / 10 }
    else if key = GLFW_KEY_RIGHT then { s with cameraOrbitAngle := s.cameraOrbitAngle + 1 / 10 }
    else if key = GLFW_KEY_L then { s with isLightEnabled := !s.isLightEnabled }
    else if key = GLFW_KEY_M then
      { s with shouldUseMagentaMaterial := !s.shouldUseMagentaMaterial }
    else s
  else s

/-- The decoded input events of the scene-state machine. -/
inductive SceneEvent where
  | orbitLeft
  | orbitRight
  | toggleLight
  | toggleMaterial
  | none
  deriving DecidableEq, Repr

/-- Which event a `(key, action)` pair stands for: only a press or a repeat of one of the
four keys is an event. -/
def decodeEvent (key action : Int) : SceneEvent :=
  if action = GLFW_PRESS ∨ action = GLFW_REPEAT then
    if key = GLFW_KEY_LEFT then SceneEvent.orbitLeft
    else if key = GLFW_KEY_RIGHT then SceneEvent.orbitRight
    else if key = GLFW_KEY_L then SceneEvent.toggleLight
    else if key = GLFW_KEY_M then SceneEvent.toggleMaterial
    else SceneEvent.none
  else SceneEvent.none

/-- The state machine as the specification words it, field by field: orbit-left subtracts
the step `0.1` from the camera orbit angle, orbit-right adds it, the toggles negate their
flag, and every field not named keeps its value. -/
def specSceneStep (s : SceneState K) : SceneEvent → SceneState K
  | SceneEvent.orbitLeft =>
      ⟨s.cameraOrbitAngle - 1 / 10, s.currentCameraHeight, s.isLightEnabled,
        s.shouldUseMagentaMaterial, s.lightOrbitAngle⟩
  | SceneEvent.orbitRight =>
      ⟨s.cameraOrbitAngle + 1 / 10, s.currentCameraHeight, s.isLightEnabled,
        s.shouldUseMagentaMaterial, s.lightOrbitAngle⟩
  | SceneEvent.toggleLight =>
      ⟨s.cameraOrbitAngle, s.currentCameraHeight, !s.isLightEnabled,
        s.shouldUseMagentaMaterial, s.lightOrbitAngle⟩
  | SceneEvent.toggleMaterial =>
      ⟨s.cameraOrbitAngle, s.currentCameraHeight, s.isLightEnabled,
        !s.shouldUseMagentaMaterial, s.lightOrbitAngle⟩
  | SceneEvent.none => s

end SceneStateAndInput

section FrameRenderer

variable {K : Type} [Field K]

/-- One `glDrawArrays` call with the uniforms and the texture binding set for it. -/
structure DrawCall (K : Type) where
  isRenderingSphere : Bool
  boundTexture : Option Nat
  modelMatrix : Mat4 K
  vertexCount : Int

/-- What one iteration of the frame loop submits to the graphics device. -/
structure FrameOutput (K : Type) where
  cameraX : K
  cameraZ : K
  viewMatrix : Mat4 K
  projectionMatrix : Mat4 K
  lightPosition : K × K × K
  lightColor : K × K × K
  isLightEnabled : Bool
  shouldUseMagentaMaterial : Bool
  cubeDraws : List (DrawCall K)
  sphereDraw : DrawCall K
  state : SceneState K

/-- The body of the `while` loop of `main`, from `// Camera setup` to the sphere draw.
`uninit` is the content of the uninitialised local arrays; `sunTextureID` and
`sphereTotalVertices` are the globals set at start-up. -/
def renderFrame (cos sin sqrt tanf : K → K) (uninit : Mat4 K) (sunTextureID : Nat)
    (sphereTotalVertices : Int) (s : SceneState K) : FrameOutput K :=
  let cameraX := 6 * cos s.cameraOrbitAngle
  let cameraZ := 6 * sin s.cameraOrbitAngle
  let viewMatrix :=
    createViewMatrix sqrt uninit cameraX s.currentCameraHeight cameraZ 0 0 0 0 1 0
  let projectionMatrix :=
    createProjectionMatrix tanf uninit (31415 / 10000 / 4) (800 / 600) (1 / 10) 100
  let lightOrbitAngle := s.lightOrbitAngle + 5 / 1000
  let lightX := 4 * cos lightOrbitAngle
  let lightZ := 4 * sin lightOrbitAngle
  let cubeDraws := [(-1 : Int), 0, 1].map (fun i =>
    let modelMatrix := createTranslationMatrix uninit ((i : K) * (11 / 10)) 0 0
    ({ isRenderingSphere := false, boundTexture := none, modelMatrix := modelMatrix,
       vertexCount := 36 } : DrawCall K))
  let sphereModelMatrix := createTranslationMatrix uninit lightX (18 / 10) lightZ
  let scaleMatrix := createScalingMatrix uninit (1 / 2) (1 / 2) (1 / 2)
  let sphereModelMatrix := multiplyMatrices sphereModelMatrix sphereModelMatrix scaleMatrix
  { cameraX := cameraX
    cameraZ := cameraZ
    viewMatrix := viewMatrix
    projectionMatrix := projectionMatrix
    lightPosition := (lightX, 2, lightZ)
    lightColor := (1, 1, 0)
    isLightEnabled := s.isLightEnabled
    shouldUseMagentaMaterial := s.shouldUseMagentaMaterial
    cubeDraws := cubeDraws
    sphereDraw :=
      { isRenderingSphere := true, boundTexture := some sunTextureID,
        modelMatrix := sphereModelMatrix, vertexCount := sphereTotalVertices }
    state := { s with lightOrbitAngle := lightOrbitAngle } }

end FrameRenderer

section SphereTriangles

/-- The triangles of one grid cell as the specification words them: with
`currentRow = latitude * (longitudeSegments + 1) + longitude` and
`nextRow = currentRow + longitudeSegments + 1`, the upper triangle
`(currentRow, nextRow, currentRow + 1)` unless the cell is in the north-pole row
(`latitude = 0`), and the lower triangle `(currentRow + 1, nextRow, nextRow + 1)` unless it is
in the south-pole row (`latitude = latitudeSegments - 1`). -/
def specCellTriangles (longitudeSegments latitudeSegments latitude longitude : Nat) :
    List (Nat × Nat × Nat) :=
  let currentRow := latitude * (longitudeSegments + 1) + longitude
  let nextRow := currentRow + longitudeSegments + 1
  (if latitude ≠ 0 then [(currentRow, nextRow, currentRow + 1)] else [])
  ++ (if latitude ≠ latitudeSegments - 1 then [(currentRow + 1, nextRow, nextRow + 1)] else [])

/-- The triangles of all grid cells, rows outermost, in the order of the index loops. -/
def specSphereTriangles (longitudeSegments latitudeSegments : Nat) : List (Nat × Nat × Nat) :=
  (List.range latitudeSegments).flatMap (fun latitude =>
    (List.range longitudeSegments).flatMap (fun longitude =>
      specCellTriangles longitudeSegments latitudeSegments latitude longitude))

/-- The three indices a triangle contributes to the index list. -/
def triangleCorners (t : Nat × Nat × Nat) : List Nat := [t.1, t.2.1, t.2.2]

/-- The grid row of a vertex index: the grid has `longitudeSegments + 1` vertices per row. -/
def gridRow (longitudeSegments index : Nat) : Nat := index / (longitudeSegments + 1)

/-- Two of the three corners of `t` lie in grid row `row`. -/
def twoCornersInRow (longitudeSegments row : Nat) (t : Nat × Nat × Nat) : Bool :=
  (gridRow longitudeSegments t.1 == row && gridRow longitudeSegments t.2.1 == row)
  || (gridRow longitudeSegments t.1 == row && gridRow longitudeSegments t.2.2 == row)
  || (gridRow longitudeSegments t.2.1 == row && gridRow longitudeSegments t.2.2 == row)

end SphereTriangles

section Vectors

variable {K : Type} [Field K]

/-- The dot product of two 3-vectors. -/
def dot3 (a b : K × K × K) : K := a.1 * b.1 + a.2.1 * b.2.1 + a.2.2 * b.2.2

/-- The cross product of two 3-vectors. -/
def cross3 (a b : K × K × K) : K × K × K :=
  (a.2.1 * b.2.2 - a.2.2 * b.2.1, a.2.2 * b.1 - a.1 * b.2.2, a.1 * b.2.1 - a.2.1 * b.1)

/-- Row `0` of the upper-left 3×3 block of a column-major matrix: cells 0, 4, 8. -/
def blockRow0 (m : Mat4 K) : K × K × K := (m.cell 0, m.cell 4, m.cell 8)

/-- Row `1` of the upper-left 3×3 block of a column-major matrix: cells 1, 5, 9. -/
def blockRow1 (m : Mat4 K) : K × K × K := (m.cell 1, m.cell 5, m.cell 9)

/-- Row `2` of the upper-left 3×3 block of a column-major matrix: cells 2, 6, 10. -/
def blockRow2 (m : Mat4 K) : K × K × K := (m.cell 2, m.cell 6, m.cell 10)

/-- The determinant of the 3×3 matrix with rows `a`, `b`, `c`. -/
def det3 (a b c : K × K × K) : K := dot3 a (cross3 b c)

end Vectors

section FragmentShader

variable {K : Type} [LinearOrderedField K]

/-- GLSL `normalize`: the vector divided by its length. -/
def normalize3 (sqrt : K → K) (v : K × K × K) : K × K × K :=
  let len := sqrt (dot3 v v)
  (v.1 / len, v.2.1 / len, v.2.2 / len)

/-- The `in` variables of the fragment shader. -/
structure FragmentInput (K : Type) where
  fragmentPosition : K × K × K
  surfaceNormal : K × K × K
  textureCoordinates : K × K

/-- The uniforms that the fragment shader reads, apart from the sampler. -/
structure FragmentUniforms (K : Type) where
  lightPosition : K × K × K
  lightColor : K × K × K
  isLightEnabled : Bool
  shouldUseMagentaMaterial : Bool
  isRenderingSphere : Bool

/-- The `main` of `fragmentShaderSource`; `texture` is the sampling function
`texture(surfaceTexture, ·)` of the texture bound when the draw is issued. -/
def fragmentShaderMain (sqrt : K → K) (texture : K × K → K × K × K × K)
    (u : FragmentUniforms K) (i : FragmentInput K) : K × K × K × K :=
  if u.isRenderingSphere then texture i.textureCoordinates
  else
    let baseColor : K × K × K := if u.shouldUseMagentaMaterial then (1, 0, 1) else (1, 1, 1)
    let normalizedNormal := normalize3 sqrt i.surfaceNormal
    let lightDirection := normalize3 sqrt
      (u.lightPosition.1 - i.fragmentPosition.1, u.lightPosition.2.1 - i.fragmentPosition.2.1,
        u.lightPosition.2.2 - i.fragmentPosition.2.2)
    let diffuseStrength := max (dot3 normalizedNormal lightDirection) 0
    let diffuseLight : K × K × K :=
      if u.isLightEnabled then
        (diffuseStrength * u.lightColor.1, diffuseStrength * u.lightColor.2.1,
          diffuseStrength * u.lightColor.2.2)
      else (0, 0, 0)
    let combinedColor : K × K × K :=
      ((diffuseLight.1 + 2 / 10) * baseColor.1, (diffuseLight.2.1 + 2 / 10) * baseColor.2.1,
        (diffuseLight.2.2 + 2 / 10) * baseColor.2.2)
    (combinedColor.1, combinedColor.2.1, combinedColor.2.2, 1)

/-- The uniform values in force for a draw call of a frame. -/
def drawUniforms (out : FrameOutput K) (d : DrawCall K) : FragmentUniforms K :=
  { lightPosition := out.lightPosition
    lightColor := out.lightColor
    isLightEnabled := out.isLightEnabled
    shouldUseMagentaMaterial := out.shouldUseMagentaMaterial
    isRenderingSphere := d.isRenderingSphere }

end FragmentShader

section Startup

/-- What the external libraries report during the start-up of `main`. -/
structure StartupEnv where
  glfwInitOk : Bool
  windowOk : Bool
  glewOk : Bool
  vertexShaderOk : Bool
  fragmentShaderOk : Bool
  linkOk : Bool
  imageLoaded : Bool
  generatedTexture : Nat

/-- The messages written to `std::cerr`. -/
inductive Diagnostic where
  | glfwInitializationFailed
  | windowCreationFailed
  | glewInitializationFailed
  | shaderCompilationFailed
  | shaderProgramLinkingFailed
  | failedToLoadTexture
  | textureLoadingFailedUsingFallbackColors
  deriving DecidableEq, Repr

/-- How the start-up of `main` ends: by `return -1`, or by reaching the `while` loop. -/
inductive StartupResult where
  | exited (status : Int) (diagnostics : List Diagnostic)
  | enteredFrameLoop (sunTextureID : Nat) (diagnostics : List Diagnostic)
  deriving DecidableEq, Repr

/-- The diagnostics of `compileGLShader`: it logs a failed compile and returns the shader
either way. -/
def compileGLShader (successStatus : Bool) : List Diagnostic :=
  if !successStatus then [Diagnostic.shaderCompilationFailed] else []

/-- The diagnostics of `initializeShaderProgram`: two compiles, then the link, whose failure
is logged; the function returns `void`. -/
def initializeShaderProgram (env : StartupEnv) : List Diagnostic :=
  compileGLShader env.vertexShaderOk ++ compileGLShader env.fragmentShaderOk
    ++ (if !env.linkOk then [Diagnostic.shaderProgramLinkingFailed] else [])

/-- The handle and diagnostics of `loadTextureFromFile`: 0 when `stbi_load` fails. -/
def loadTextureFromFile (env : StartupEnv) : Nat × List Diagnostic :=
  if !env.imageLoaded then (0, [Diagnostic.failedToLoadTexture])
  else (env.generatedTexture, [])

/-- The part of `main` before the `while` loop. -/
def mainStartup (env : StartupEnv) : StartupResult :=
  if !env.glfwInitOk then
    StartupResult.exited (-1) [Diagnostic.glfwInitializationFailed]
  else if !env.windowOk then
    StartupResult.exited (-1) [Diagnostic.windowCreationFailed]
  else if !env.glewOk then
    StartupResult.exited (-1) [Diagnostic.glewInitializationFailed]
  else
    let shaderDiagnostics := initializeShaderProgram env
    let loaded := loadTextureFromFile env
    let sunTextureID := loaded.1
    let fallbackDiagnostics :=
      if sunTextureID = 0 then [Diagnostic.textureLoadingFailedUsingFallbackColors] else []
    StartupResult.enteredFrameLoop sunTextureID
      (shaderDiagnostics ++ loaded.2 ++ fallbackDiagnostics)

end Startup

section BezierEditor

variable {K : Type} [LinearOrderedField K]

/-- `struct BZpoint { float x, y; }`. -/
structure BZpoint (K : Type) where
  x : K
  y : K

/-- `BZpoint::dist`. -/
def BZpoint.dist (sqrt : K → K) (a p : BZpoint K) : K :=
  sqrt ((a.x - p.x) * (a.x - p.x) + (a.y - p.y) * (a.y - p.y))

/-- `const int WIN_W = 800;` -/
def WIN_W : K := 800

/-- `const int WIN_H = 800;` -/
def WIN_H : K := 800

/-- `const float PT_RADIUS = 0.05f;` -/
def PT_RADIUS : K := 5 / 100

/-- Value of `GLFW_MOUSE_BUTTON_LEFT` in `GLFW/glfw3.h`. -/
def GLFW_MOUSE_BUTTON_LEFT : Int := 0

/-- Value of `GLFW_MOUSE_BUTTON_RIGHT` in `GLFW/glfw3.h`. -/
def GLFW_MOUSE_BUTTON_RIGHT : Int := 1

/-- The globals `pts` and `activeIdx` of the Bezier editor. -/
structure EditorState (K : Type) where
  pts : List (BZpoint K)
  activeIdx : Int

/-- The initialisers of `pts` and `activeIdx`. -/
def initialEditorState : EditorState K :=
  { pts := [⟨-7 / 10, -3 / 10⟩, ⟨-3 / 10, 8 / 10⟩, ⟨1 / 10, -5 / 10⟩, ⟨5 / 10, 3 / 10⟩]
    activeIdx := -1 }

/-- The search loop `for (int i = 0; i < pts.size(); ++i) if (pts[i].dist(mouse) < PT_RADIUS)`:
the first index, counted from `i`, of a point closer to `mouse` than `PT_RADIUS`. -/
def firstNear (sqrt : K → K) (mouse : BZpoint K) : List (BZpoint K) → Nat → Option Nat
  | [], _ => none
  | p :: rest, i =>
    if p.dist sqrt mouse < PT_RADIUS then some i else firstNear sqrt mouse rest (i + 1)

/-- The callback `mouseBtn`; `mx`, `my` is the cursor position that `glfwGetCursorPos`
reports. `updateBuffers` only uploads to the graphics device. -/
def mouseBtn (sqrt : K → K) (st : EditorState K) (mx my : K) (btn act : Int) :
    EditorState K :=
  let mouse : BZpoint K := ⟨mx / WIN_W * 2 - 1, 1 - my / WIN_H * 2⟩
  if btn = GLFW_MOUSE_BUTTON_LEFT ∧ act = GLFW_PRESS then
    match firstNear sqrt mouse st.pts 0 with
    | some i => { st with activeIdx := (i : Int) }
    | none => { st with pts := st.pts ++ [mouse] }
  else if btn = GLFW_MOUSE_BUTTON_RIGHT ∧ act = GLFW_PRESS then
    match firstNear sqrt mouse st.pts 0 with
    | some i => { st with pts := st.pts.eraseIdx i }
    | none => st
  else if btn = GLFW_MOUSE_BUTTON_LEFT ∧ act = GLFW_RELEASE then
    { st with activeIdx := -1 }
  else st

/-- The callback `mouseMove`. A write `pts[activeIdx]` past the end of the vector is
undefined in C++; here it leaves `pts` as it is. -/
def mouseMove (st : EditorState K) (x y : K) : EditorState K :=
  if st.activeIdx ≥ 0 then
    { st with pts := st.pts.set st.activeIdx.toNat ⟨x / WIN_W * 2 - 1, 1 - y / WIN_H * 2⟩ }
  else st

/-- The events that GLFW delivers to the two callbacks. -/
inductive EditorEvent (K : Type) where
  | button (mx my : K) (btn act : Int)
  | move (x y : K)

/-- One callback invocation. -/
def editorStep (sqrt : K → K) (st : EditorState K) : EditorEvent K → EditorState K
  | EditorEvent.button mx my btn act => mouseBtn sqrt st mx my btn act
  | EditorEvent.move x y => mouseMove st x y

/-- The state after a sequence of events. -/
def runEditor (sqrt : K → K) (st : EditorState K) (events : List (EditorEvent K)) :
    EditorState K :=
  events.foldl (editorStep sqrt) st

/-- `activeIdx` is `-1` or a valid index of `pts`. -/
def activeIdxValid (st : EditorState K) : Prop :=
  st.activeIdx = -1 ∨ (0 ≤ st.activeIdx ∧ st.activeIdx < st.pts.length)

instance (st : EditorState K) : Decidable (activeIdxValid st) := by
  unfold activeIdxValid
  infer_instance

end BezierEditor

section MatrixLemmas

variable {K : Type} [Field K]

omit [Field K] in
theorem Mat4.set_cell (m : Mat4 K) (i : Fin 16) (v : K) (j : Fin 16) :
    (m.set i v).cell j = if j = i then v else m.cell j := by
  simp [Mat4.set, Function.update_apply]

omit [Field K] in
theorem foldl_update_finRange16 (g : Fin 16 → K) (matrix : Mat4 K) :
    (List.finRange 16).foldl (fun m i => m.set i (g i)) matrix = ⟨g⟩ := by
  ext j
  fin_cases j <;>
    simp [List.finRange, List.ofFn, Fin.foldr, Fin.foldr.loop, Mat4.set, Function.update]

theorem createIdentityMatrix_apply (matrix : Mat4 K) (i : Fin 16) :
    (createIdentityMatrix matrix).cell i = if i.val % 5 = 0 then (1 : K) else 0 := by
  unfold createIdentityMatrix
  rw [foldl_update_finRange16 (fun i => if i.val % 5 = 0 then (1 : K) else 0)]

omit [Field K] in
theorem memcpy16_eq (dst src : Mat4 K) : memcpy16 dst src = src := by
  unfold memcpy16
  rw [foldl_update_finRange16 (fun i => src.cell i)]

omit [Field K] in
theorem foldl_finRange4 {β : Type} (f : β → Fin 4 → β) (b : β) :
    (List.finRange 4).foldl f b = f (f (f (f b 0) 1) 2) 3 := by
  simp [List.finRange, List.ofFn, Fin.foldr, Fin.foldr.loop]

theorem addAt_apply (t : Mat4 K) (c : Fin 16) (s : K) (j : Fin 16) :
    (addAt t c s).cell j = t.cell j + if j.val = c.val then s else 0 := by
  unfold addAt
  rw [Mat4.set_cell]
  by_cases h : j = c
  · subst h; simp
  · have h2 : ¬ j.val = c.val := fun e => h (Fin.ext e)
    simp [h, h2]

theorem addAt_addAt (t : Mat4 K) (c : Fin 16) (s1 s2 : K) :
    addAt (addAt t c s1) c s2 = addAt t c (s1 + s2) := by
  ext j
  simp only [addAt_apply]
  split <;> ring

theorem multiplyLoop_eq_addAt (first second temp : Mat4 K) :
    multiplyLoop first second temp
      = (List.finRange 4).foldl (fun t0 row =>
          (List.finRange 4).foldl (fun t1 col =>
            addAt t1 (idx4 row col)
              (first.cell (idx4 row 0) * second.cell (idx4 0 col)
                + first.cell (idx4 row 1) * second.cell (idx4 1 col)
                + first.cell (idx4 row 2) * second.cell (idx4 2 col)
                + first.cell (idx4 row 3) * second.cell (idx4 3 col))) t0) temp := by
  have inner (t1 : Mat4 K) (row col : Fin 4) :
      (List.finRange 4).foldl (fun t2 k =>
          t2.set (idx4 row col)
            (t2.cell (idx4 row col)
              + first.cell (idx4 row k) * second.cell (idx4 k col))) t1
        = addAt t1 (idx4 row col)
            (first.cell (idx4 row 0) * second.cell (idx4 0 col)
              + first.cell (idx4 row 1) * second.cell (idx4 1 col)
              + first.cell (idx4 row 2) * second.cell (idx4 2 col)
              + first.cell (idx4 row 3) * second.cell (idx4 3 col)) := by
    rw [foldl_finRange4]
    change addAt (addAt (addAt (addAt t1 _ _) _ _) _ _) _ _ = _
    simp only [addAt_addAt]
  unfold multiplyLoop
  simp only [inner]

theorem foldl_addAt_grid (S : Fin 4 → Fin 4 → K) (temp : Mat4 K) (row col : Fin 4) :
    ((List.finRange 4).foldl (fun t0 r =>
        (List.finRange 4).foldl (fun t1 c => addAt t1 (idx4 r c) (S r c)) t0) temp).cell
        (idx4 row col)
      = temp.cell (idx4 row col) + S row col := by
  have h0 : ((0 : Fin 4) : Nat) = 0 := rfl
  have h1 : ((1 : Fin 4) : Nat) = 1 := rfl
  have h2 : ((2 : Fin 4) : Nat) = 2 := rfl
  have h3 : ((3 : Fin 4) : Nat) = 3 := rfl
  simp only [foldl_finRange4, addAt_apply, idx4, h0, h1, h2, h3]
  rcases row with ⟨row, hr⟩
  rcases col with ⟨col, hc⟩
  interval_cases row <;> interval_cases col <;> norm_num <;> rfl

theorem multiplyLoop_apply (first second temp : Mat4 K) (row col : Fin 4) :
    (multiplyLoop first second temp).cell (idx4 row col)
      = temp.cell (idx4 row col) + (first.cell (idx4 row 0) * second.cell (idx4 0 col)
        + first.cell (idx4 row 1) * second.cell (idx4 1 col)
        + first.cell (idx4 row 2) * second.cell (idx4 2 col)
        + first.cell (idx4 row 3) * second.cell (idx4 3 col)) := by
  rw [multiplyLoop_eq_addAt]
  exact foldl_addAt_grid (fun r c => first.cell (idx4 r 0) * second.cell (idx4 0 c)
    + first.cell (idx4 r 1) * second.cell (idx4 1 c)
    + first.cell (idx4 r 2) * second.cell (idx4 2 c)
    + first.cell (idx4 r 3) * second.cell (idx4 3 c)) temp row col

theorem multiplyMatrices_apply (result first second : Mat4 K) (row col : Fin 4) :
    (multiplyMatrices result first second).cell (idx4 row col)
      = first.cell (idx4 row 0) * second.cell (idx4 0 col)
        + first.cell (idx4 row 1) * second.cell (idx4 1 col)
        + first.cell (idx4 row 2) * second.cell (idx4 2 col)
        + first.cell (idx4 row 3) * second.cell (idx4 3 col) := by
  unfold multiplyMatrices
  rw [memcpy16_eq, multiplyLoop_apply]
  simp

theorem idx4_eval :
    idx4 0 0 = 0 ∧ idx4 0 1 = 1 ∧ idx4 0 2 = 2 ∧ idx4 0 3 = 3
      ∧ idx4 1 0 = 4 ∧ idx4 1 1 = 5 ∧ idx4 1 2 = 6 ∧ idx4 1 3 = 7
      ∧ idx4 2 0 = 8 ∧ idx4 2 1 = 9 ∧ idx4 2 2 = 10 ∧ idx4 2 3 = 11
      ∧ idx4 3 0 = 12 ∧ idx4 3 1 = 13 ∧ idx4 3 2 = 14 ∧ idx4 3 3 = 15 := by
  decide

theorem mod5_iff (i : Fin 16) : i.val % 5 = 0 ↔ (i = 0 ∨ i = 5 ∨ i = 10 ∨ i = 15) := by
  revert i
  decide

theorem createTranslationMatrix_apply (matrix : Mat4 K) (x y z : K) (i : Fin 16) :
    (createTranslationMatrix matrix x y z).cell i
      = if i = 14 then z else if i = 13 then y else if i = 12 then x
        else if i = 0 ∨ i = 5 ∨ i = 10 ∨ i = 15 then 1 else 0 := by
  simp only [createTranslationMatrix, Mat4.set_cell, createIdentityMatrix_apply,
    mod5_iff]

theorem createScalingMatrix_apply (matrix : Mat4 K) (x y z : K) (i : Fin 16) :
    (createScalingMatrix matrix x y z).cell i
      = if i = 10 then z else if i = 5 then y else if i = 0 then x
        else if i = 0 ∨ i = 5 ∨ i = 10 ∨ i = 15 then 1 else 0 := by
  simp only [createScalingMatrix, Mat4.set_cell, createIdentityMatrix_apply,
    mod5_iff]

end MatrixLemmas

section MatrixTheorems

variable {K : Type} [Field K]

omit [Field K] in
theorem exists_idx4 (i : Fin 16) : ∃ row col : Fin 4, i = idx4 row col := by
  revert i
  decide

/-- C1 (the code at the failing input, and what it computes in general): read column-major
(`cell[row + col * 4]`), `multiplyMatrices(result, first, second)` is the product
`second × first`, not `first × second`; for `first = translation(1, 2, 3)` and
`second = scale(1/2, 1/2, 1/2)` the cell `0 + 3 * 4` of the result is `1/2`, whereas the
column-major product `first × second` has `1` there. -/
theorem multiplyMatrices_column_major_reversed :
    (∀ (result first second : Mat4 ℚ) (row col : Fin 4),
        (multiplyMatrices result first second).cell (idx4 col row)
          = second.cell (idx4 0 row) * first.cell (idx4 col 0)
            + second.cell (idx4 1 row) * first.cell (idx4 col 1)
            + second.cell (idx4 2 row) * first.cell (idx4 col 2)
            + second.cell (idx4 3 row) * first.cell (idx4 col 3))
    ∧ (multiplyMatrices ⟨fun _ => 0⟩ (createTranslationMatrix ⟨fun _ => 0⟩ (1 : ℚ) 2 3)
        (createScalingMatrix ⟨fun _ => 0⟩ (1 / 2 : ℚ) (1 / 2) (1 / 2))).cell (idx4 3 0) = 1 / 2
    ∧ ((createTranslationMatrix ⟨fun _ => 0⟩ (1 : ℚ) 2 3).cell (idx4 0 0)
          * (createScalingMatrix ⟨fun _ => 0⟩ (1 / 2 : ℚ) (1 / 2) (1 / 2)).cell (idx4 3 0)
        + (createTranslationMatrix ⟨fun _ => 0⟩ (1 : ℚ) 2 3).cell (idx4 1 0)
          * (createScalingMatrix ⟨fun _ => 0⟩ (1 / 2 : ℚ) (1 / 2) (1 / 2)).cell (idx4 3 1)
        + (createTranslationMatrix ⟨fun _ => 0⟩ (1 : ℚ) 2 3).cell (idx4 2 0)
          * (createScalingMatrix ⟨fun _ => 0⟩ (1 / 2 : ℚ) (1 / 2) (1 / 2)).cell (idx4 3 2)
        + (createTranslationMatrix ⟨fun _ => 0⟩ (1 : ℚ) 2 3).cell (idx4 3 0)
          * (createScalingMatrix ⟨fun _ => 0⟩ (1 / 2 : ℚ) (1 / 2) (1 / 2)).cell (idx4 3 3))
        = 1 := by
  refine ⟨?_, ?_, ?_⟩
  · intro result first second row col
    rw [multiplyMatrices_apply]
    ring
  · rw [multiplyMatrices_apply]
    simp [createTranslationMatrix_apply, createScalingMatrix_apply, idx4_eval]
  · simp [createTranslationMatrix_apply, createScalingMatrix_apply, idx4_eval]

/-- C3: for every 16-cell matrix `M`, `multiplyMatrices` applied to (identity, `M`) and to
(`M`, identity) yields `M`, cell for cell, where identity is the output of
`createIdentityMatrix`; over any field, so over the rationals and the reals. -/
theorem multiplyMatrices_identity (result matrix M : Mat4 K) (i : Fin 16) :
    (multiplyMatrices result (createIdentityMatrix matrix) M).cell i = M.cell i
      ∧ (multiplyMatrices result M (createIdentityMatrix matrix)).cell i = M.cell i := by
  obtain ⟨row, col, rfl⟩ := exists_idx4 i
  rw [multiplyMatrices_apply, multiplyMatrices_apply]
  constructor <;> fin_cases row <;> fin_cases col <;>
    simp [createIdentityMatrix_apply, mod5_iff, idx4_eval]

/-- C4: the matrix built by `createTranslationMatrix(x, y, z)`, applied column-major to the
homogeneous point `(px, py, pz, 1)`, yields `(px + x, py + y, pz + z, 1)`; the origin is
mapped to `(x, y, z, 1)`. -/
theorem createTranslationMatrix_applyMatrix (matrix : Mat4 K) (x y z px py pz : K) :
    applyMatrix (createTranslationMatrix matrix x y z) (point4 px py pz)
        = point4 (px + x) (py + y) (pz + z)
      ∧ applyMatrix (createTranslationMatrix matrix x y z) (point4 0 0 0) = point4 x y z := by
  constructor <;> funext row <;> fin_cases row <;>
    simp [applyMatrix, point4, createTranslationMatrix_apply, idx4_eval]

theorem translation_times_scaling_apply (result m1 m2 : Mat4 K) (x y z sx sy sz : K)
    (i : Fin 16) :
    (multiplyMatrices result (createTranslationMatrix m1 x y z)
        (createScalingMatrix m2 sx sy sz)).cell i
      = if i = 0 then sx else if i = 5 then sy else if i = 10 then sz
        else if i = 12 then x * sx else if i = 13 then y * sy else if i = 14 then z * sz
        else if i = 15 then 1 else 0 := by
  obtain ⟨row, col, rfl⟩ := exists_idx4 i
  rw [multiplyMatrices_apply]
  fin_cases row <;> fin_cases col <;>
    simp [createTranslationMatrix_apply, createScalingMatrix_apply, idx4_eval]

end MatrixTheorems

section ViewAndProjection

theorem createViewMatrix_cells {K : Type} [Field K] (sqrt : K → K) (matrix : Mat4 K)
    (eyeX eyeY eyeZ centerX centerY centerZ upX upY upZ : K) (i : Fin 16) :
    (createViewMatrix sqrt matrix eyeX eyeY eyeZ centerX centerY centerZ upX upY upZ).cell i
      = if i = 0 then
          (viewRight sqrt eyeX eyeY eyeZ centerX centerY centerZ upX upY upZ).1
        else if i = 4 then
          (viewRight sqrt eyeX eyeY eyeZ centerX centerY centerZ upX upY upZ).2.1
        else if i = 8 then
          (viewRight sqrt eyeX eyeY eyeZ centerX centerY centerZ upX upY upZ).2.2
        else if i = 1 then
          (viewCorrectedUp sqrt eyeX eyeY eyeZ centerX centerY centerZ upX upY upZ).1
        else if i = 5 then
          (viewCorrectedUp sqrt eyeX eyeY eyeZ centerX centerY centerZ upX upY upZ).2.1
        else if i = 9 then
          (viewCorrectedUp sqrt eyeX eyeY eyeZ centerX centerY centerZ upX upY upZ).2.2
        else if i = 2 then -(viewForward sqrt eyeX eyeY eyeZ centerX centerY centerZ).1
        else if i = 6 then -(viewForward sqrt eyeX eyeY eyeZ centerX centerY centerZ).2.1
        else if i = 10 then -(viewForward sqrt eyeX eyeY eyeZ centerX centerY centerZ).2.2
        else if i = 12 then
          -(viewRight sqrt eyeX eyeY eyeZ centerX centerY centerZ upX upY upZ).1 * eyeX
            - (viewRight sqrt eyeX eyeY eyeZ centerX centerY centerZ upX upY upZ).2.1 * eyeY
            - (viewRight sqrt eyeX eyeY eyeZ centerX centerY centerZ upX upY upZ).2.2 * eyeZ
        else if i = 13 then
          -(viewCorrectedUp sqrt eyeX eyeY eyeZ centerX centerY centerZ upX upY upZ).1 * eyeX
            - (viewCorrectedUp sqrt eyeX eyeY eyeZ centerX centerY centerZ upX upY upZ).2.1
              * eyeY
            - (viewCorrectedUp sqrt eyeX eyeY eyeZ centerX centerY centerZ upX upY upZ).2.2
              * eyeZ
        else if i = 14 then
          (viewForward sqrt eyeX eyeY eyeZ centerX centerY centerZ).1 * eyeX
            + (viewForward sqrt eyeX eyeY eyeZ centerX centerY centerZ).2.1 * eyeY
            + (viewForward sqrt eyeX eyeY eyeZ centerX centerY centerZ).2.2 * eyeZ
        else if i = 15 then 1 else 0 := by
  fin_cases i <;>
    simp [createViewMatrix, Mat4.set_cell, createIdentityMatrix_apply, mod5_iff,
      viewRight, viewCorrectedUp, viewForward]

theorem viewForward_norm (eyeX eyeY eyeZ centerX centerY centerZ : ℝ)
    (hne : (eyeX, eyeY, eyeZ) ≠ (centerX, centerY, centerZ)) :
    0 < Real.sqrt ((centerX - eyeX) * (centerX - eyeX)
        + (centerY - eyeY) * (centerY - eyeY) + (centerZ - eyeZ) * (centerZ - eyeZ))
      ∧ Real.sqrt ((centerX - eyeX) * (centerX - eyeX)
          + (centerY - eyeY) * (centerY - eyeY) + (centerZ - eyeZ) * (centerZ - eyeZ))
        * Real.sqrt ((centerX - eyeX) * (centerX - eyeX)
          + (centerY - eyeY) * (centerY - eyeY) + (centerZ - eyeZ) * (centerZ - eyeZ))
        = (centerX - eyeX) * (centerX - eyeX)
          + (centerY - eyeY) * (centerY - eyeY) + (centerZ - eyeZ) * (centerZ - eyeZ) := by
  have hpos : 0 < (centerX - eyeX) * (centerX - eyeX)
      + (centerY - eyeY) * (centerY - eyeY) + (centerZ - eyeZ) * (centerZ - eyeZ) := by
    by_contra hle
    apply hne
    have h0 : centerX - eyeX = 0 := by
      nlinarith [mul_self_nonneg (centerX - eyeX), mul_self_nonneg (centerY - eyeY),
        mul_self_nonneg (centerZ - eyeZ)]
    have h1 : centerY - eyeY = 0 := by
      nlinarith [mul_self_nonneg (centerX - eyeX), mul_self_nonneg (centerY - eyeY),
        mul_self_nonneg (centerZ - eyeZ)]
    have h2 : centerZ - eyeZ = 0 := by
      nlinarith [mul_self_nonneg (centerX - eyeX), mul_self_nonneg (centerY - eyeY),
        mul_self_nonneg (centerZ - eyeZ)]
    have e0 : eyeX = centerX := by linarith
    have e1 : eyeY = centerY := by linarith
    have e2 : eyeZ = centerZ := by linarith
    rw [e0, e1, e2]
  exact ⟨Real.sqrt_pos.mpr hpos, Real.mul_self_sqrt hpos.le⟩

theorem viewRightLength_pos (eyeX eyeY eyeZ centerX centerY centerZ upX upY upZ : ℝ)
    (hne : (eyeX, eyeY, eyeZ) ≠ (centerX, centerY, centerZ))
    (hup : ((centerY - eyeY) * upZ - (centerZ - eyeZ) * upY,
             (centerZ - eyeZ) * upX - (centerX - eyeX) * upZ,
             (centerX - eyeX) * upY - (centerY - eyeY) * upX) ≠ ((0 : ℝ), (0 : ℝ), (0 : ℝ))) :
    0 < viewRightLength Real.sqrt eyeX eyeY eyeZ centerX centerY centerZ upX upY upZ := by
  obtain ⟨hL, -⟩ := viewForward_norm eyeX eyeY eyeZ centerX centerY centerZ hne
  unfold viewRightLength viewForward
  simp only []
  generalize Real.sqrt ((centerX - eyeX) * (centerX - eyeX)
    + (centerY - eyeY) * (centerY - eyeY) + (centerZ - eyeZ) * (centerZ - eyeZ)) = L at hL ⊢
  generalize hc0 : (centerY - eyeY) * upZ - (centerZ - eyeZ) * upY = c0 at hup
  generalize hc1 : (centerZ - eyeZ) * upX - (centerX - eyeX) * upZ = c1 at hup
  generalize hc2 : (centerX - eyeX) * upY - (centerY - eyeY) * upX = c2 at hup
  have hL0 : L ≠ 0 := ne_of_gt hL
  have hc : 0 < c0 * c0 + c1 * c1 + c2 * c2 := by
    by_contra hle
    apply hup
    have h0 : c0 = 0 := by
      nlinarith [mul_self_nonneg c0, mul_self_nonneg c1, mul_self_nonneg c2]
    have h1 : c1 = 0 := by
      nlinarith [mul_self_nonneg c0, mul_self_nonneg c1, mul_self_nonneg c2]
    have h2 : c2 = 0 := by
      nlinarith [mul_self_nonneg c0, mul_self_nonneg c1, mul_self_nonneg c2]
    rw [h0, h1, h2]
  apply Real.sqrt_pos.mpr
  have e : ((centerY - eyeY) / L * upZ - (centerZ - eyeZ) / L * upY)
        * ((centerY - eyeY) / L * upZ - (centerZ - eyeZ) / L * upY)
      + ((centerZ - eyeZ) / L * upX - (centerX - eyeX) / L * upZ)
        * ((centerZ - eyeZ) / L * upX - (centerX - eyeX) / L * upZ)
      + ((centerX - eyeX) / L * upY - (centerY - eyeY) / L * upX)
        * ((centerX - eyeX) / L * upY - (centerY - eyeY) / L * upX)
      = (c0 * c0 + c1 * c1 + c2 * c2) / (L * L) := by
    rw [← hc0, ← hc1, ← hc2]
    field_simp
  rw [e]
  exact div_pos hc (mul_pos hL hL)

/-- C5: for `eye ≠ target` and `up` not parallel to `target − eye` (their cross product is
not zero), the matrix built by `createViewMatrix`, applied column-major, maps `(eye, 1)` to
`(0, 0, 0, 1)` and `(target, 1)` to `(0, 0, z, 1)` with `z = −|target − eye| < 0`; both
lengths the function divides by are positive. Over the reals with the exact square root. -/
theorem createViewMatrix_eye_and_target (matrix : Mat4 ℝ)
    (eyeX eyeY eyeZ centerX centerY centerZ upX upY upZ : ℝ)
    (hne : (eyeX, eyeY, eyeZ) ≠ (centerX, centerY, centerZ))
    (hup : ((centerY - eyeY) * upZ - (centerZ - eyeZ) * upY,
             (centerZ - eyeZ) * upX - (centerX - eyeX) * upZ,
             (centerX - eyeX) * upY - (centerY - eyeY) * upX) ≠ ((0 : ℝ), (0 : ℝ), (0 : ℝ))) :
    applyMatrix
        (createViewMatrix Real.sqrt matrix eyeX eyeY eyeZ centerX centerY centerZ upX upY upZ)
        (point4 eyeX eyeY eyeZ) = point4 0 0 0
      ∧ applyMatrix
          (createViewMatrix Real.sqrt matrix eyeX eyeY eyeZ centerX centerY centerZ upX upY upZ)
          (point4 centerX centerY centerZ)
        = point4 0 0
            (-Real.sqrt ((centerX - eyeX) * (centerX - eyeX)
              + (centerY - eyeY) * (centerY - eyeY) + (centerZ - eyeZ) * (centerZ - eyeZ)))
      ∧ -Real.sqrt ((centerX - eyeX) * (centerX - eyeX)
              + (centerY - eyeY) * (centerY - eyeY) + (centerZ - eyeZ) * (centerZ - eyeZ)) < 0
      ∧ 0 < viewForwardLength Real.sqrt eyeX eyeY eyeZ centerX centerY centerZ
      ∧ 0 < viewRightLength Real.sqrt eyeX eyeY eyeZ centerX centerY centerZ upX upY upZ := by
  obtain ⟨hL, hLL⟩ := viewForward_norm eyeX eyeY eyeZ centerX centerY centerZ hne
  refine ⟨?_, ?_, by linarith, hL,
    viewRightLength_pos eyeX eyeY eyeZ centerX centerY centerZ upX upY upZ hne hup⟩
  · funext row
    fin_cases row <;>
      simp [applyMatrix, point4, createViewMatrix_cells, idx4_eval] <;> ring
  · funext row
    fin_cases row
    · simp [applyMatrix, point4, createViewMatrix_cells, idx4_eval]
      simp only [viewRight, viewForward]
      ring
    · simp [applyMatrix, point4, createViewMatrix_cells, idx4_eval]
      simp only [viewCorrectedUp, viewRight, viewForward]
      ring
    · simp [applyMatrix, point4, createViewMatrix_cells, idx4_eval]
      simp only [viewForward]
      generalize Real.sqrt ((centerX - eyeX) * (centerX - eyeX)
        + (centerY - eyeY) * (centerY - eyeY) + (centerZ - eyeZ) * (centerZ - eyeZ)) = L
        at hL hLL ⊢
      have hL0 : L ≠ 0 := ne_of_gt hL
      field_simp
      linear_combination L ^ 3 * hLL
    · simp [applyMatrix, point4, createViewMatrix_cells, idx4_eval]

/-- C5 (witness): eye `(0, 0, 1)`, target `(0, 0, 0)`, up `(0, 1, 0)`. -/
theorem createViewMatrix_eye_and_target_witness :
    ((0 : ℝ), (0 : ℝ), (1 : ℝ)) ≠ ((0 : ℝ), (0 : ℝ), (0 : ℝ))
      ∧ (((0 : ℝ) - 0) * 0 - ((0 : ℝ) - 1) * 1, ((0 : ℝ) - 1) * 0 - ((0 : ℝ) - 0) * 0,
          ((0 : ℝ) - 0) * 1 - ((0 : ℝ) - 0) * 0) ≠ ((0 : ℝ), (0 : ℝ), (0 : ℝ))
      ∧ (applyMatrix (createViewMatrix Real.sqrt ⟨fun _ => 0⟩ 0 0 1 0 0 0 0 1 0)
            (point4 0 0 1) = point4 0 0 0
        ∧ applyMatrix (createViewMatrix Real.sqrt ⟨fun _ => 0⟩ 0 0 1 0 0 0 0 1 0)
            (point4 0 0 0)
          = point4 0 0
              (-Real.sqrt (((0 : ℝ) - 0) * ((0 : ℝ) - 0) + ((0 : ℝ) - 0) * ((0 : ℝ) - 0)
                + ((0 : ℝ) - 1) * ((0 : ℝ) - 1)))
        ∧ -Real.sqrt (((0 : ℝ) - 0) * ((0 : ℝ) - 0) + ((0 : ℝ) - 0) * ((0 : ℝ) - 0)
                + ((0 : ℝ) - 1) * ((0 : ℝ) - 1)) < 0
        ∧ 0 < viewForwardLength Real.sqrt 0 0 1 0 0 0
        ∧ 0 < viewRightLength Real.sqrt 0 0 1 0 0 0 0 1 0) :=
  ⟨by simp, by simp,
    createViewMatrix_eye_and_target ⟨fun _ => 0⟩ 0 0 1 0 0 0 0 1 0 (by simp) (by simp)⟩

theorem createProjectionMatrix_apply {K : Type} [Field K] (tanf : K → K) (matrix : Mat4 K)
    (fov aspectRatio nearPlane farPlane : K) (i : Fin 16) :
    (createProjectionMatrix tanf matrix fov aspectRatio nearPlane farPlane).cell i
      = if i = 14 then (2 * farPlane * nearPlane) / (nearPlane - farPlane)
        else if i = 11 then -1
        else if i = 10 then (farPlane + nearPlane) / (nearPlane - farPlane)
        else if i = 5 then 1 / tanf (fov / 2)
        else if i = 0 then 1 / tanf (fov / 2) / aspectRatio
        else 0 := by
  unfold createProjectionMatrix
  simp only [foldl_update_finRange16 (fun _ => (0 : K)), Mat4.set_cell]

/-- C6: for `0 < near < far`, a vertical field of view in `(0, π)` and an aspect ratio `> 0`,
the matrix built by `createProjectionMatrix` maps `(0, 0, −near, 1)` to a clip-space point
with `w = near ≠ 0` and `z / w = −1`, and `(0, 0, −far, 1)` to one with `w = far ≠ 0` and
`z / w = 1`; over the reals with the exact tangent. -/
theorem createProjectionMatrix_near_far (matrix : Mat4 ℝ) (fov aspectRatio nearPlane farPlane : ℝ)
    (hnear : 0 < nearPlane) (hfar : nearPlane < farPlane)
    (_hfov : 0 < fov ∧ fov < Real.pi) (_haspect : 0 < aspectRatio) :
    (applyMatrix (createProjectionMatrix Real.tan matrix fov aspectRatio nearPlane farPlane)
          (point4 0 0 (-nearPlane)) 3 = nearPlane
        ∧ nearPlane ≠ 0
        ∧ applyMatrix (createProjectionMatrix Real.tan matrix fov aspectRatio nearPlane farPlane)
              (point4 0 0 (-nearPlane)) 2
            / applyMatrix
                (createProjectionMatrix Real.tan matrix fov aspectRatio nearPlane farPlane)
                (point4 0 0 (-nearPlane)) 3 = -1)
      ∧ (applyMatrix (createProjectionMatrix Real.tan matrix fov aspectRatio nearPlane farPlane)
          (point4 0 0 (-farPlane)) 3 = farPlane
        ∧ farPlane ≠ 0
        ∧ applyMatrix (createProjectionMatrix Real.tan matrix fov aspectRatio nearPlane farPlane)
              (point4 0 0 (-farPlane)) 2
            / applyMatrix
                (createProjectionMatrix Real.tan matrix fov aspectRatio nearPlane farPlane)
                (point4 0 0 (-farPlane)) 3 = 1) := by
  have hn : nearPlane ≠ 0 := ne_of_gt hnear
  have hf : farPlane ≠ 0 := ne_of_gt (lt_trans hnear hfar)
  have hd : nearPlane - farPlane ≠ 0 := by
    intro h
    linarith
  have w (p : ℝ) :
      applyMatrix (createProjectionMatrix Real.tan matrix fov aspectRatio nearPlane farPlane)
        (point4 0 0 (-p)) 3 = p := by
    simp [applyMatrix, point4, createProjectionMatrix_apply, idx4_eval]
  have z (p : ℝ) :
      applyMatrix (createProjectionMatrix Real.tan matrix fov aspectRatio nearPlane farPlane)
        (point4 0 0 (-p)) 2
        = (farPlane + nearPlane) / (nearPlane - farPlane) * (-p)
          + (2 * farPlane * nearPlane) / (nearPlane - farPlane) := by
    simp [applyMatrix, point4, createProjectionMatrix_apply, idx4_eval]
  refine ⟨⟨w nearPlane, hn, ?_⟩, ⟨w farPlane, hf, ?_⟩⟩
  · rw [z, w]
    field_simp
    ring
  · rw [z, w]
    field_simp
    ring

/-- C6 (witness): `fov = 1`, aspect ratio `1`, `near = 1`, `far = 2`. -/
theorem createProjectionMatrix_near_far_witness :
    (0 : ℝ) < 1 ∧ (1 : ℝ) < 2 ∧ ((0 : ℝ) < 1 ∧ (1 : ℝ) < Real.pi) ∧ (0 : ℝ) < 1
      ∧ ((applyMatrix (createProjectionMatrix Real.tan ⟨fun _ => 0⟩ 1 1 1 2)
              (point4 0 0 (-1)) 3 = 1
          ∧ (1 : ℝ) ≠ 0
          ∧ applyMatrix (createProjectionMatrix Real.tan ⟨fun _ => 0⟩ 1 1 1 2)
                (point4 0 0 (-1)) 2
              / applyMatrix (createProjectionMatrix Real.tan ⟨fun _ => 0⟩ 1 1 1 2)
                  (point4 0 0 (-1)) 3 = -1)
        ∧ (applyMatrix (createProjectionMatrix Real.tan ⟨fun _ => 0⟩ 1 1 1 2)
              (point4 0 0 (-2)) 3 = 2
          ∧ (2 : ℝ) ≠ 0
          ∧ applyMatrix (createProjectionMatrix Real.tan ⟨fun _ => 0⟩ 1 1 1 2)
                (point4 0 0 (-2)) 2
              / applyMatrix (createProjectionMatrix Real.tan ⟨fun _ => 0⟩ 1 1 1 2)
                  (point4 0 0 (-2)) 3 = 1)) :=
  ⟨by norm_num, by norm_num, ⟨by norm_num, by linarith [Real.pi_gt_three]⟩, by norm_num,
    createProjectionMatrix_near_far ⟨fun _ => 0⟩ 1 1 1 2 (by norm_num) (by norm_num)
      ⟨by norm_num, by linarith [Real.pi_gt_three]⟩ (by norm_num)⟩

end ViewAndProjection

section FrameTheorems

theorem renderFrame_lightPosition {K : Type} [Field K] (cos sin sqrt tanf : K → K)
    (uninit : Mat4 K) (sunTextureID : Nat) (sphereTotalVertices : Int) (s : SceneState K) :
    (renderFrame cos sin sqrt tanf uninit sunTextureID sphereTotalVertices s).lightPosition
      = (4 * cos (s.lightOrbitAngle + 5 / 1000), 2, 4 * sin (s.lightOrbitAngle + 5 / 1000)) :=
  rfl

theorem renderFrame_sphereModelMatrix {K : Type} [Field K] (cos sin sqrt tanf : K → K)
    (uninit : Mat4 K) (sunTextureID : Nat) (sphereTotalVertices : Int) (s : SceneState K) :
    (renderFrame cos sin sqrt tanf uninit sunTextureID sphereTotalVertices
        s).sphereDraw.modelMatrix
      = multiplyMatrices
          (createTranslationMatrix uninit (4 * cos (s.lightOrbitAngle + 5 / 1000)) (18 / 10)
            (4 * sin (s.lightOrbitAngle + 5 / 1000)))
          (createTranslationMatrix uninit (4 * cos (s.lightOrbitAngle + 5 / 1000)) (18 / 10)
            (4 * sin (s.lightOrbitAngle + 5 / 1000)))
          (createScalingMatrix uninit (1 / 2) (1 / 2) (1 / 2)) := by
  simp only [renderFrame]

/-- C2 (counterexample): in the first frame (`lightOrbitAngle = 0` before the advance) the
submitted sphere model matrix does not have the submitted light position in its translation
cells 12, 13, 14 together with 0.5 on the diagonal: cell 13 is `0.9`, the light's height is
`2`. -/
theorem sphereModelMatrix_not_at_lightPosition :
    ¬ ((renderFrame Real.cos Real.sin Real.sqrt Real.tan ⟨fun _ => 0⟩ 0 0
            (initialSceneState : SceneState ℝ)).sphereDraw.modelMatrix.cell 12
          = (renderFrame Real.cos Real.sin Real.sqrt Real.tan ⟨fun _ => 0⟩ 0 0
            (initialSceneState : SceneState ℝ)).lightPosition.1
        ∧ (renderFrame Real.cos Real.sin Real.sqrt Real.tan ⟨fun _ => 0⟩ 0 0
            (initialSceneState : SceneState ℝ)).sphereDraw.modelMatrix.cell 13
          = (renderFrame Real.cos Real.sin Real.sqrt Real.tan ⟨fun _ => 0⟩ 0 0
            (initialSceneState : SceneState ℝ)).lightPosition.2.1
        ∧ (renderFrame Real.cos Real.sin Real.sqrt Real.tan ⟨fun _ => 0⟩ 0 0
            (initialSceneState : SceneState ℝ)).sphereDraw.modelMatrix.cell 14
          = (renderFrame Real.cos Real.sin Real.sqrt Real.tan ⟨fun _ => 0⟩ 0 0
            (initialSceneState : SceneState ℝ)).lightPosition.2.2
        ∧ (renderFrame Real.cos Real.sin Real.sqrt Real.tan ⟨fun _ => 0⟩ 0 0
            (initialSceneState : SceneState ℝ)).sphereDraw.modelMatrix.cell 0 = 1 / 2
        ∧ (renderFrame Real.cos Real.sin Real.sqrt Real.tan ⟨fun _ => 0⟩ 0 0
            (initialSceneState : SceneState ℝ)).sphereDraw.modelMatrix.cell 5 = 1 / 2
        ∧ (renderFrame Real.cos Real.sin Real.sqrt Real.tan ⟨fun _ => 0⟩ 0 0
            (initialSceneState : SceneState ℝ)).sphereDraw.modelMatrix.cell 10 = 1 / 2) := by
  rintro ⟨-, h13, -⟩
  rw [renderFrame_sphereModelMatrix, renderFrame_lightPosition,
    translation_times_scaling_apply] at h13
  simp at h13
  norm_num at h13

/-- C2 (amended): for every scene state, hence every `lightOrbitAngle`, the frame loop builds
the sphere model matrix by `multiplyMatrices` from `createTranslationMatrix(lightX, 1.8,
lightZ)` and `createScalingMatrix(0.5, 0.5, 0.5)`, where `lightX` and `lightZ` are the x and
z of the light position `(lightX, 2.0, lightZ)` submitted in the same frame; the submitted
matrix has 0.5 in its diagonal cells 0, 5, 10, has 1 in cell 15 and 0 in the cells
1, 2, 3, 4, 6, 7, 8, 9, 11. -/
theorem sphereModelMatrix_amended {K : Type} [Field K] (cos sin sqrt tanf : K → K)
    (uninit : Mat4 K) (sunTextureID : Nat) (sphereTotalVertices : Int) (s : SceneState K) :
    (renderFrame cos sin sqrt tanf uninit sunTextureID sphereTotalVertices s).lightPosition
        = (4 * cos (s.lightOrbitAngle + 5 / 1000), 2, 4 * sin (s.lightOrbitAngle + 5 / 1000))
      ∧ (renderFrame cos sin sqrt tanf uninit sunTextureID sphereTotalVertices
            s).sphereDraw.modelMatrix
          = multiplyMatrices
              (createTranslationMatrix uninit
                (renderFrame cos sin sqrt tanf uninit sunTextureID sphereTotalVertices
                  s).lightPosition.1 (18 / 10)
                (renderFrame cos sin sqrt tanf uninit sunTextureID sphereTotalVertices
                  s).lightPosition.2.2)
              (createTranslationMatrix uninit
                (renderFrame cos sin sqrt tanf uninit sunTextureID sphereTotalVertices
                  s).lightPosition.1 (18 / 10)
                (renderFrame cos sin sqrt tanf uninit sunTextureID sphereTotalVertices
                  s).lightPosition.2.2)
              (createScalingMatrix uninit (1 / 2) (1 / 2) (1 / 2))
      ∧ (renderFrame cos sin sqrt tanf uninit sunTextureID sphereTotalVertices
            s).sphereDraw.modelMatrix.cell 0 = 1 / 2
      ∧ (renderFrame cos sin sqrt tanf uninit sunTextureID sphereTotalVertices
            s).sphereDraw.modelMatrix.cell 5 = 1 / 2
      ∧ (renderFrame cos sin sqrt tanf uninit sunTextureID sphereTotalVertices
            s).sphereDraw.modelMatrix.cell 10 = 1 / 2
      ∧ (renderFrame cos sin sqrt tanf uninit sunTextureID sphereTotalVertices
            s).sphereDraw.modelMatrix.cell 15 = 1
      ∧ (renderFrame cos sin sqrt tanf uninit sunTextureID sphereTotalVertices
            s).sphereDraw.modelMatrix.cell 1 = 0
      ∧ (renderFrame cos sin sqrt tanf uninit sunTextureID sphereTotalVertices
            s).sphereDraw.modelMatrix.cell 2 = 0
      ∧ (renderFrame cos sin sqrt tanf uninit sunTextureID sphereTotalVertices
            s).sphereDraw.modelMatrix.cell 3 = 0
      ∧ (renderFrame cos sin sqrt tanf uninit sunTextureID sphereTotalVertices
            s).sphereDraw.modelMatrix.cell 4 = 0
      ∧ (renderFrame cos sin sqrt tanf uninit sunTextureID sphereTotalVertices
            s).sphereDraw.modelMatrix.cell 6 = 0
      ∧ (renderFrame cos sin sqrt tanf uninit sunTextureID sphereTotalVertices
            s).sphereDraw.modelMatrix.cell 7 = 0
      ∧ (renderFrame cos sin sqrt tanf uninit sunTextureID sphereTotalVertices
            s).sphereDraw.modelMatrix.cell 8 = 0
      ∧ (renderFrame cos sin sqrt tanf uninit sunTextureID sphereTotalVertices
            s).sphereDraw.modelMatrix.cell 9 = 0
      ∧ (renderFrame cos sin sqrt tanf uninit sunTextureID sphereTotalVertices
            s).sphereDraw.modelMatrix.cell 11 = 0 := by
  refine ⟨renderFrame_lightPosition _ _ _ _ _ _ _ _, ?_, ?_, ?_, ?_, ?_, ?_, ?_, ?_, ?_, ?_,
    ?_, ?_, ?_, ?_⟩
  · rw [renderFrame_sphereModelMatrix, renderFrame_lightPosition]
  all_goals
    rw [renderFrame_sphereModelMatrix, translation_times_scaling_apply]
    simp

end FrameTheorems

section SphereLemmas

theorem foldl_append_eq_flatMap {α β : Type} (f : α → List β) (l : List α) (init : List β) :
    l.foldl (fun acc x => acc ++ f x) init = init ++ l.flatMap f := by
  induction l generalizing init with
  | nil => simp
  | cons x xs ih => simp [List.foldl_cons, ih, List.flatMap_cons, List.append_assoc]

theorem flatten_chunk {α : Type} (L : List (List α)) (h : ∀ c ∈ L, c.length = 8)
    (i : Nat) (hi : i < L.length) :
    (L.flatten.drop (i * 8)).take 8 = L[i] := by
  induction L generalizing i with
  | nil => simp at hi
  | cons c L ih =>
    have hc : c.length = 8 := h c (List.mem_cons_self _ _)
    cases i with
    | zero => simp [List.take_left' hc]
    | succ i =>
      have hi2 : i < L.length := by simpa using hi
      have e : (i + 1) * 8 = c.length + i * 8 := by omega
      simp only [List.flatten_cons, e, List.drop_append, List.getElem_cons_succ]
      exact ih (fun c hc => h c (List.mem_cons_of_mem _ hc)) i hi2

theorem flatten_chunk_length {α : Type} (L : List (List α)) (h : ∀ c ∈ L, c.length = 8) :
    L.flatten.length = 8 * L.length := by
  induction L with
  | nil => simp
  | cons c L ih =>
    have hc : c.length = 8 := h c (List.mem_cons_self _ _)
    simp only [List.flatten_cons, List.length_append, List.length_cons, hc,
      ih (fun c hc => h c (List.mem_cons_of_mem _ hc))]
    omega

variable {K : Type} [Field K]

omit [Field K] in
theorem flatten_flatMap_map {α β : Type} (l : List α) (l2 : List β) (g : α → β → List K) :
    (l.flatMap (fun a => l2.map (g a))).flatten = l.flatMap (fun a => l2.flatMap (g a)) := by
  induction l with
  | nil => simp
  | cons a l ih =>
    rw [List.flatMap_cons, List.flatten_append, ih, List.flatMap_cons, List.flatMap_def l2]

theorem sphereGridVertices_eq_flatten (cosf sinf : K → K) (radius : K)
    (longitudeSegments latitudeSegments : Int) :
    sphereGridVertices cosf sinf radius longitudeSegments latitudeSegments
      = (gridChunks cosf sinf radius longitudeSegments latitudeSegments).flatten := by
  unfold gridChunks
  rw [flatten_flatMap_map]
  have inner : ∀ (latitude : Nat) (acc : List K),
      (List.range (longitudeSegments + 1).toNat).foldl
          (fun tempVertices longitude => tempVertices
            ++ gridVertex cosf sinf radius longitudeSegments latitudeSegments latitude longitude)
          acc
        = acc ++ (List.range (longitudeSegments + 1).toNat).flatMap
            (gridVertex cosf sinf radius longitudeSegments latitudeSegments latitude) :=
    fun latitude acc => foldl_append_eq_flatMap _ _ _
  show (List.range (latitudeSegments + 1).toNat).foldl
      (fun tempVertices latitude =>
        (List.range (longitudeSegments + 1).toNat).foldl
          (fun tempVertices longitude => tempVertices
            ++ gridVertex cosf sinf radius longitudeSegments latitudeSegments latitude longitude)
          tempVertices) [] = _
  simp only [inner]
  rw [foldl_append_eq_flatMap]
  simp

theorem sphereIndexStep_eq (latitudeSegments : Int) (latitude : Nat)
    (st : List Nat × Int × Int) :
    sphereIndexStep latitudeSegments latitude st
      = (st.1 ++ stepTriangles latitudeSegments latitude st.2.1 st.2.2,
          st.2.1 + 1, st.2.2 + 1) := by
  unfold sphereIndexStep stepTriangles
  by_cases h1 : (latitude : Int) ≠ 0 <;> by_cases h2 : (latitude : Int) ≠ latitudeSegments - 1 <;>
    simp [h1, h2]

theorem foldl_sphereIndexStep (latitudeSegments : Int) (latitude : Nat) (n : Nat)
    (indices : List Nat) (currentRow nextRow : Int) :
    (List.range n).foldl
        (fun st (_longitude : Nat) => sphereIndexStep latitudeSegments latitude st)
        (indices, currentRow, nextRow)
      = (indices ++ (List.range n).flatMap (fun longitude =>
            stepTriangles latitudeSegments latitude (currentRow + longitude)
              (nextRow + longitude)),
          currentRow + n, nextRow + n) := by
  induction n with
  | zero => simp
  | succ n ih =>
    rw [List.range_succ, List.foldl_append, ih]
    simp only [List.foldl_cons, List.foldl_nil, sphereIndexStep_eq, List.flatMap_append,
      List.flatMap_singleton, List.append_assoc, Nat.cast_add, Nat.cast_one, add_assoc]

theorem sphereIndices_eq_flatMap (longitudeSegments latitudeSegments : Int) :
    sphereIndices longitudeSegments latitudeSegments
      = (List.range latitudeSegments.toNat).flatMap (fun latitude =>
          (List.range longitudeSegments.toNat).flatMap (fun longitude =>
            stepTriangles latitudeSegments latitude
              ((latitude : Int) * (longitudeSegments + 1) + longitude)
              ((latitude : Int) * (longitudeSegments + 1) + longitudeSegments + 1
                + longitude))) := by
  unfold sphereIndices
  simp only [foldl_sphereIndexStep]
  rw [foldl_append_eq_flatMap]
  simp

theorem stepTriangles_length (latitudeSegments : Int) (latitude : Nat)
    (currentRow nextRow : Int) :
    (stepTriangles latitudeSegments latitude currentRow nextRow).length
      = (if (latitude : Int) ≠ 0 then 3 else 0)
        + (if (latitude : Int) ≠ latitudeSegments - 1 then 3 else 0) := by
  unfold stepTriangles
  by_cases h1 : (latitude : Int) ≠ 0 <;> by_cases h2 : (latitude : Int) ≠ latitudeSegments - 1 <;>
    simp [h1, h2]

theorem sum_range_indicator (n k c : Nat) :
    ((List.range n).map (fun la => if la ≠ k then c else 0)).sum
      = if k < n then c * (n - 1) else c * n := by
  induction n with
  | zero => simp
  | succ n ih =>
    rw [List.range_succ, List.map_append, List.sum_append, ih]
    by_cases h1 : k < n
    · have h2 : k < n + 1 := by omega
      have h3 : n ≠ k := by omega
      have h4 : n - 1 + 1 = n := by omega
      simp only [h1, h2, h3, if_true, List.map_cons, List.map_nil, List.sum_cons, List.sum_nil,
        ne_eq, not_false_eq_true, Nat.add_sub_cancel, add_zero]
      rw [← Nat.mul_succ, Nat.succ_eq_add_one, h4]
    · by_cases h5 : k = n
      · subst h5
        simp
      · have h2 : ¬ k < n + 1 := by omega
        have h3 : n ≠ k := fun e => h5 e.symm
        simp only [h1, h2, h3, if_false, List.map_cons, List.map_nil, List.sum_cons,
          List.sum_nil, ne_eq, not_false_eq_true, if_true, add_zero]
        rw [Nat.mul_succ]

theorem length_flatMap_const {α β : Type} (l : List α) (f : α → List β) (c : Nat)
    (h : ∀ a, (f a).length = c) : (l.flatMap f).length = l.length * c := by
  induction l with
  | nil => simp
  | cons a l ih =>
    rw [List.flatMap_cons, List.length_append, ih, h a, List.length_cons]
    ring

theorem sphereIndices_length (n m : Nat) (hm : 1 ≤ m) :
    (sphereIndices (n : Int) (m : Int)).length = 3 * (2 * n * (m - 1)) := by
  rw [sphereIndices_eq_flatMap, List.length_flatMap]
  have inner : ∀ latitude : Nat,
      (List.length ∘ fun latitude : Nat =>
          (List.range (n : Int).toNat).flatMap (fun longitude : Nat =>
            stepTriangles (m : Int) latitude
              ((latitude : Int) * ((n : Int) + 1) + longitude)
              ((latitude : Int) * ((n : Int) + 1) + (n : Int) + 1 + longitude))) latitude
        = (if latitude ≠ 0 then 3 * n else 0) + (if latitude ≠ m - 1 then 3 * n else 0) := by
    intro latitude
    have e1 : ((latitude : Int) ≠ 0) ↔ latitude ≠ 0 := by omega
    have e2 : ((latitude : Int) ≠ (m : Int) - 1) ↔ latitude ≠ m - 1 := by omega
    simp only [Function.comp_apply]
    rw [length_flatMap_const _ _ _ (fun longitude => stepTriangles_length _ _ _ _),
      List.length_range, Int.toNat_natCast]
    simp only [e1, e2]
    split_ifs <;> ring
  rw [List.map_congr_left (fun latitude _ => inner latitude)]
  have split : ((List.range (m : Int).toNat).map (fun latitude : Nat =>
        (if latitude ≠ 0 then 3 * n else 0) + (if latitude ≠ m - 1 then 3 * n else 0))).sum
      = ((List.range m).map (fun la => if la ≠ 0 then 3 * n else 0)).sum
        + ((List.range m).map (fun la => if la ≠ m - 1 then 3 * n else 0)).sum := by
    rw [Int.toNat_natCast]
    generalize List.range m = l
    induction l with
    | nil => simp
    | cons a l ih =>
      simp only [List.map_cons, List.sum_cons, ih]
      omega
  rw [split, sum_range_indicator, sum_range_indicator]
  have h1 : 0 < m := by omega
  have h2 : m - 1 < m := by omega
  simp only [h1, h2, if_true]
  ring

theorem stepTriangles_lt (n m latitude longitude i : Nat) (hla : latitude < m)
    (hlo : longitude < n)
    (hi : i ∈ stepTriangles (m : Int) latitude
      ((latitude : Int) * ((n : Int) + 1) + longitude)
      ((latitude : Int) * ((n : Int) + 1) + (n : Int) + 1 + longitude)) :
    i < (m + 1) * (n + 1) := by
  have hP : (latitude + 1) * (n + 1) ≤ m * (n + 1) := Nat.mul_le_mul_right _ hla
  have e1 : (latitude + 1) * (n + 1) = latitude * (n + 1) + (n + 1) := by ring
  have e2 : (m + 1) * (n + 1) = m * (n + 1) + (n + 1) := by ring
  have e3 : (latitude : Int) * ((n : Int) + 1) = ((latitude * (n + 1) : Nat) : Int) := by
    push_cast
    ring
  rw [e2]
  rw [e1] at hP
  rw [e3] at hi
  generalize latitude * (n + 1) = A at hP hi
  generalize m * (n + 1) = B at hP
  unfold stepTriangles toUnsigned at hi
  rw [List.mem_append] at hi
  rcases hi with hi | hi
  · split at hi
    · simp only [List.mem_cons, List.mem_singleton, List.mem_nil_iff, or_false] at hi
      omega
    · simp at hi
  · split at hi
    · simp only [List.mem_cons, List.mem_singleton, List.mem_nil_iff, or_false] at hi
      omega
    · simp at hi

theorem sphereIndices_lt (n m i : Nat) (hi : i ∈ sphereIndices (n : Int) (m : Int)) :
    i < (m + 1) * (n + 1) := by
  rw [sphereIndices_eq_flatMap] at hi
  simp only [List.mem_flatMap, List.mem_range, Int.toNat_natCast] at hi
  obtain ⟨latitude, hla, longitude, hlo, hmem⟩ := hi
  exact stepTriangles_lt n m latitude longitude i hla hlo hmem

theorem gridChunks_length_eight (cosf sinf : K → K) (radius : K)
    (longitudeSegments latitudeSegments : Int) :
    ∀ c ∈ gridChunks cosf sinf radius longitudeSegments latitudeSegments, c.length = 8 := by
  intro c hc
  simp only [gridChunks, List.mem_flatMap, List.mem_map] at hc
  obtain ⟨latitude, -, longitude, -, rfl⟩ := hc
  simp [gridVertex]

theorem gridChunks_length (cosf sinf : K → K) (radius : K) (n m : Nat) :
    (gridChunks cosf sinf radius (n : Int) (m : Int)).length = (m + 1) * (n + 1) := by
  unfold gridChunks
  rw [length_flatMap_const _ _ (n + 1)]
  · simp only [List.length_range]
    congr 1
  · intro a
    simp only [List.length_map, List.length_range]
    omega

omit [Field K] in
theorem expandIndices_eq_flatten (tempVertices : List K) (indices : List Nat) :
    expandIndices tempVertices indices
      = (indices.map (fun index => (tempVertices.drop (index * 8)).take 8)).flatten := by
  unfold expandIndices
  rw [foldl_append_eq_flatMap, List.nil_append, List.flatMap_def]

theorem generateSphereGeometry_eq_flatten (cosf sinf : K → K) (radius : K) (n m : Nat)
    (vertexBuffer : List K) :
    generateSphereGeometry cosf sinf radius (n : Int) (m : Int) vertexBuffer
      = (outputChunks cosf sinf radius (n : Int) (m : Int)).flatten := by
  unfold generateSphereGeometry outputChunks
  simp only []
  rw [expandIndices_eq_flatten]
  congr 1
  apply List.map_congr_left
  intro index hindex
  have hlt := sphereIndices_lt n m index hindex
  rw [← gridChunks_length cosf sinf radius n m] at hlt
  rw [sphereGridVertices_eq_flatten,
    flatten_chunk _ (gridChunks_length_eight cosf sinf radius n m) index hlt]
  simp [hlt]

theorem outputChunks_mem (cosf sinf : K → K) (radius : K) (n m : Nat) :
    ∀ c ∈ outputChunks cosf sinf radius (n : Int) (m : Int),
      c ∈ gridChunks cosf sinf radius (n : Int) (m : Int) := by
  intro c hc
  simp only [outputChunks, List.mem_map] at hc
  obtain ⟨index, hindex, rfl⟩ := hc
  have hlt := sphereIndices_lt n m index hindex
  rw [← gridChunks_length cosf sinf radius n m] at hlt
  simp [hlt]

theorem outputChunks_length_eight (cosf sinf : K → K) (radius : K) (n m : Nat) :
    ∀ c ∈ outputChunks cosf sinf radius (n : Int) (m : Int), c.length = 8 :=
  fun c hc => gridChunks_length_eight cosf sinf radius n m c
    (outputChunks_mem cosf sinf radius n m c hc)

theorem generateSphereGeometry_length (cosf sinf : K → K) (radius : K) (n m : Nat)
    (hm : 1 ≤ m) (vertexBuffer : List K) :
    (generateSphereGeometry cosf sinf radius (n : Int) (m : Int) vertexBuffer).length
      = 8 * (3 * (2 * n * (m - 1))) := by
  rw [generateSphereGeometry_eq_flatten,
    flatten_chunk_length _ (outputChunks_length_eight cosf sinf radius n m)]
  unfold outputChunks
  rw [List.length_map, sphereIndices_length n m hm]

theorem generateSphereGeometry_vertexCount (cosf sinf : K → K) (radius : K) (n m : Nat)
    (hm : 1 ≤ m) (vertexBuffer : List K) :
    vertexCount (generateSphereGeometry cosf sinf radius (n : Int) (m : Int) vertexBuffer)
      = 3 * (2 * n * (m - 1)) := by
  unfold vertexCount
  rw [generateSphereGeometry_length cosf sinf radius n m hm]
  omega

theorem vertexAt_mem_gridChunks (cosf sinf : K → K) (radius : K) (n m : Nat)
    (vertexBuffer : List K) (j : Nat)
    (hj : j < vertexCount
      (generateSphereGeometry cosf sinf radius (n : Int) (m : Int) vertexBuffer)) :
    vertexAt (generateSphereGeometry cosf sinf radius (n : Int) (m : Int) vertexBuffer) j
      ∈ gridChunks cosf sinf radius (n : Int) (m : Int) := by
  have hlen : (outputChunks cosf sinf radius (n : Int) (m : Int)).length
      = vertexCount
          (generateSphereGeometry cosf sinf radius (n : Int) (m : Int) vertexBuffer) := by
    unfold vertexCount
    rw [generateSphereGeometry_eq_flatten,
      flatten_chunk_length _ (outputChunks_length_eight cosf sinf radius n m)]
    omega
  rw [← hlen] at hj
  unfold vertexAt
  rw [generateSphereGeometry_eq_flatten,
    flatten_chunk _ (outputChunks_length_eight cosf sinf radius n m) j hj]
  exact outputChunks_mem cosf sinf radius n m _ (List.getElem_mem hj)

end SphereLemmas

section SphereTheorems

/-- C7: for every radius, `longitudeSegments ≥ 1` and `latitudeSegments ≥ 2`,
`generateSphereGeometry` outputs exactly `3 × 2 × longitudeSegments × (latitudeSegments − 1)`
vertices, a float buffer of 8 times that length; for radius 1, 4 longitude and 2 latitude
segments the vertex count is 24. -/
theorem generateSphereGeometry_vertex_count {K : Type} [Field K] (cosf sinf : K → K)
    (radius : K) (longitudeSegments latitudeSegments : Int) (vertexBuffer : List K)
    (hlon : 1 ≤ longitudeSegments) (hlat : 2 ≤ latitudeSegments) :
    ((generateSphereGeometry cosf sinf radius longitudeSegments latitudeSegments
          vertexBuffer).length : Int)
        = 8 * (3 * 2 * longitudeSegments * (latitudeSegments - 1))
      ∧ (vertexCount (generateSphereGeometry cosf sinf radius longitudeSegments
          latitudeSegments vertexBuffer) : Int)
        = 3 * 2 * longitudeSegments * (latitudeSegments - 1)
      ∧ vertexCount (generateSphereGeometry cosf sinf 1 4 2 vertexBuffer) = 24 := by
  lift longitudeSegments to ℕ using (by omega) with n
  lift latitudeSegments to ℕ using (by omega) with m
  obtain ⟨k, rfl⟩ : ∃ k, m = k + 1 := ⟨m - 1, by omega⟩
  refine ⟨?_, ?_, ?_⟩
  · rw [generateSphereGeometry_length cosf sinf radius n (k + 1) (by omega),
      Nat.add_sub_cancel]
    push_cast
    ring
  · rw [generateSphereGeometry_vertexCount cosf sinf radius n (k + 1) (by omega),
      Nat.add_sub_cancel]
    push_cast
    ring
  · have h := generateSphereGeometry_vertexCount cosf sinf 1 4 2 (by norm_num) vertexBuffer
    simpa using h

/-- C7 (witness): radius 1, 4 longitude segments, 2 latitude segments, over the rationals
with the identity in place of sine and cosine. -/
theorem generateSphereGeometry_vertex_count_witness :
    (1 : Int) ≤ 4 ∧ (2 : Int) ≤ 2
      ∧ (((generateSphereGeometry (fun x : ℚ => x) (fun x : ℚ => x) 1 4 2 []).length : Int)
          = 8 * (3 * 2 * 4 * (2 - 1))
        ∧ (vertexCount (generateSphereGeometry (fun x : ℚ => x) (fun x : ℚ => x) 1 4 2 [])
            : Int) = 3 * 2 * 4 * (2 - 1)
        ∧ vertexCount (generateSphereGeometry (fun x : ℚ => x) (fun x : ℚ => x) 1 4 2 [])
            = 24) :=
  ⟨by decide, by decide,
    generateSphereGeometry_vertex_count (fun x : ℚ => x) (fun x : ℚ => x) 1 4 2 []
      (by decide) (by decide)⟩

theorem gridVertex_on_sphere (radius : ℝ) (hr : 0 < radius)
    (longitudeSegments latitudeSegments : Int) (latitude longitude : Nat) :
    ∃ x y z nx ny nz u v : ℝ,
      gridVertex Real.cos Real.sin radius longitudeSegments latitudeSegments latitude longitude
          = [x, y, z, nx, ny, nz, u, v]
        ∧ x * x + y * y + z * z = radius * radius
        ∧ nx = x / radius ∧ ny = y / radius ∧ nz = z / radius
        ∧ nx * nx + ny * ny + nz * nz = 1
        ∧ (radius = 1 → nx = x ∧ ny = y ∧ nz = z) := by
  have key : ∀ a b : ℝ,
      radius * Real.cos a * Real.cos b * (radius * Real.cos a * Real.cos b)
        + radius * Real.cos a * Real.sin b * (radius * Real.cos a * Real.sin b)
        + radius * Real.sin a * (radius * Real.sin a) = radius * radius := by
    intro a b
    have h1 := Real.cos_sq_add_sin_sq b
    have h2 := Real.cos_sq_add_sin_sq a
    linear_combination (radius ^ 2 * Real.cos a ^ 2) * h1 + radius ^ 2 * h2
  have hr0 : radius ≠ 0 := ne_of_gt hr
  have unit : ∀ X Y Z : ℝ, X * X + Y * Y + Z * Z = radius * radius →
      X / radius * (X / radius) + Y / radius * (Y / radius) + Z / radius * (Z / radius)
        = 1 := by
    intro X Y Z h
    field_simp
    linear_combination h
  refine ⟨_, _, _, _, _, _, _, _, rfl, key _ _, rfl, rfl, rfl, unit _ _ _ (key _ _), ?_⟩
  · intro h1
    subst h1
    simp

/-- C8: for every radius `> 0` and segment counts `≥ 1`, every vertex that
`generateSphereGeometry` outputs has a position with `x² + y² + z² = radius²` and a normal
equal to the position divided by the radius, hence a unit vector; for radius 1 the normal
equals the position. Over the reals with the exact sine and cosine. -/
theorem generateSphereGeometry_on_sphere (radius : ℝ) (longitudeSegments latitudeSegments : Int)
    (vertexBuffer : List ℝ) (hr : 0 < radius) (hlon : 1 ≤ longitudeSegments)
    (hlat : 1 ≤ latitudeSegments) (j : Nat)
    (hj : j < vertexCount (generateSphereGeometry Real.cos Real.sin radius longitudeSegments
      latitudeSegments vertexBuffer)) :
    ∃ x y z nx ny nz u v : ℝ,
      vertexAt (generateSphereGeometry Real.cos Real.sin radius longitudeSegments
          latitudeSegments vertexBuffer) j = [x, y, z, nx, ny, nz, u, v]
        ∧ x * x + y * y + z * z = radius * radius
        ∧ nx = x / radius ∧ ny = y / radius ∧ nz = z / radius
        ∧ nx * nx + ny * ny + nz * nz = 1
        ∧ (radius = 1 → nx = x ∧ ny = y ∧ nz = z) := by
  lift longitudeSegments to ℕ using (by omega) with n
  lift latitudeSegments to ℕ using (by omega) with m
  have hmem := vertexAt_mem_gridChunks Real.cos Real.sin radius n m vertexBuffer j hj
  simp only [gridChunks, List.mem_flatMap, List.mem_map] at hmem
  obtain ⟨latitude, -, longitude, -, hv⟩ := hmem
  rw [← hv]
  exact gridVertex_on_sphere radius hr n m latitude longitude

/-- C8 (witness): radius 1, 4 longitude segments, 2 latitude segments, output vertex 0. -/
theorem generateSphereGeometry_on_sphere_witness :
    (0 : ℝ) < 1 ∧ (1 : Int) ≤ 4 ∧ (1 : Int) ≤ 2
      ∧ 0 < vertexCount (generateSphereGeometry Real.cos Real.sin 1 4 2 [])
      ∧ ∃ x y z nx ny nz u v : ℝ,
          vertexAt (generateSphereGeometry Real.cos Real.sin 1 4 2 []) 0
              = [x, y, z, nx, ny, nz, u, v]
            ∧ x * x + y * y + z * z = 1 * 1
            ∧ nx = x / 1 ∧ ny = y / 1 ∧ nz = z / 1
            ∧ nx * nx + ny * ny + nz * nz = 1
            ∧ ((1 : ℝ) = 1 → nx = x ∧ ny = y ∧ nz = z) :=
  have hcount : 0 < vertexCount (generateSphereGeometry Real.cos Real.sin 1 4 2 []) := by
    have h := generateSphereGeometry_vertexCount Real.cos Real.sin 1 4 2 (by norm_num) []
    have h2 : vertexCount (generateSphereGeometry Real.cos Real.sin 1 4 2 []) = 24 := by
      simpa using h
    omega
  ⟨by norm_num, by decide, by decide, hcount,
    generateSphereGeometry_on_sphere 1 4 2 [] (by norm_num) (by decide) (by decide) 0 hcount⟩

end SphereTheorems

section SceneTheorems

/-- C9: `handleKeyboardInput` is the state machine of the specification: a press or repeat of
LEFT subtracts 0.1 from `cameraOrbitAngle`, RIGHT adds 0.1, L negates `isLightEnabled`,
M negates `shouldUseMagentaMaterial`, each leaving every other field unchanged; any other key,
and any action that is neither press nor repeat (such as release), leaves the state
unchanged; two L events (or two M events) restore the state. -/
theorem handleKeyboardInput_state_machine {K : Type} [Field K] (s : SceneState K)
    (key action : Int) :
    handleKeyboardInput s key action = specSceneStep s (decodeEvent key action)
      ∧ handleKeyboardInput s GLFW_KEY_LEFT GLFW_PRESS
          = ⟨s.cameraOrbitAngle - 1 / 10, s.currentCameraHeight, s.isLightEnabled,
              s.shouldUseMagentaMaterial, s.lightOrbitAngle⟩
      ∧ handleKeyboardInput s GLFW_KEY_LEFT GLFW_REPEAT
          = ⟨s.cameraOrbitAngle - 1 / 10, s.currentCameraHeight, s.isLightEnabled,
              s.shouldUseMagentaMaterial, s.lightOrbitAngle⟩
      ∧ handleKeyboardInput s GLFW_KEY_RIGHT GLFW_PRESS
          = ⟨s.cameraOrbitAngle + 1 / 10, s.currentCameraHeight, s.isLightEnabled,
              s.shouldUseMagentaMaterial, s.lightOrbitAngle⟩
      ∧ handleKeyboardInput s GLFW_KEY_RIGHT GLFW_REPEAT
          = ⟨s.cameraOrbitAngle + 1 / 10, s.currentCameraHeight, s.isLightEnabled,
              s.shouldUseMagentaMaterial, s.lightOrbitAngle⟩
      ∧ handleKeyboardInput s GLFW_KEY_L GLFW_PRESS
          = ⟨s.cameraOrbitAngle, s.currentCameraHeight, !s.isLightEnabled,
              s.shouldUseMagentaMaterial, s.lightOrbitAngle⟩
      ∧ handleKeyboardInput s GLFW_KEY_L GLFW_REPEAT
          = ⟨s.cameraOrbitAngle, s.currentCameraHeight, !s.isLightEnabled,
              s.shouldUseMagentaMaterial, s.lightOrbitAngle⟩
      ∧ handleKeyboardInput s GLFW_KEY_M GLFW_PRESS
          = ⟨s.cameraOrbitAngle, s.currentCameraHeight, s.isLightEnabled,
              !s.shouldUseMagentaMaterial, s.lightOrbitAngle⟩
      ∧ handleKeyboardInput s GLFW_KEY_M GLFW_REPEAT
          = ⟨s.cameraOrbitAngle, s.currentCameraHeight, s.isLightEnabled,
              !s.shouldUseMagentaMaterial, s.lightOrbitAngle⟩
      ∧ handleKeyboardInput s key GLFW_RELEASE = s
      ∧ ((key ≠ GLFW_KEY_LEFT ∧ key ≠ GLFW_KEY_RIGHT ∧ key ≠ GLFW_KEY_L ∧ key ≠ GLFW_KEY_M)
          ∨ (action ≠ GLFW_PRESS ∧ action ≠ GLFW_REPEAT)
          → handleKeyboardInput s key action = s)
      ∧ handleKeyboardInput (handleKeyboardInput s GLFW_KEY_L GLFW_PRESS) GLFW_KEY_L GLFW_PRESS
          = s
      ∧ handleKeyboardInput (handleKeyboardInput s GLFW_KEY_M GLFW_PRESS) GLFW_KEY_M GLFW_PRESS
          = s := by
  refine ⟨?_, ?_, ?_, ?_, ?_, ?_, ?_, ?_, ?_, ?_, ?_, ?_, ?_⟩
  · unfold handleKeyboardInput decodeEvent
    split_ifs <;> rfl
  all_goals
    first
    | (cases s
       simp [handleKeyboardInput, GLFW_KEY_LEFT, GLFW_KEY_RIGHT, GLFW_KEY_L, GLFW_KEY_M,
         GLFW_PRESS, GLFW_REPEAT, GLFW_RELEASE]
       done)
    | (rintro (⟨h1, h2, h3, h4⟩ | ⟨h1, h2⟩)
       · unfold handleKeyboardInput
         simp [h1, h2, h3, h4]
       · unfold handleKeyboardInput
         simp [h1, h2])

/-- C10: for every scene state the frame computes the camera position
`(6·cos θ, cameraHeight, 6·sin θ)` from `θ = cameraOrbitAngle` and builds the view matrix by
`createViewMatrix` from that position, looking at the origin with up `(0, 1, 0)`; starting
from `cameraOrbitAngle = 0`, after one orbit-right key event the camera position of the next
frame is `(6·cos 0.1, 2, 6·sin 0.1)`. For any cosine, sine, square root and tangent, so in
particular for the real ones. -/
theorem renderFrame_camera {K : Type} [Field K] (cos sin sqrt tanf : K → K) (uninit : Mat4 K)
    (sunTextureID : Nat) (sphereTotalVertices : Int) (s : SceneState K) :
    ((renderFrame cos sin sqrt tanf uninit sunTextureID sphereTotalVertices s).cameraX
          = 6 * cos s.cameraOrbitAngle
        ∧ (renderFrame cos sin sqrt tanf uninit sunTextureID sphereTotalVertices s).cameraZ
          = 6 * sin s.cameraOrbitAngle
        ∧ (renderFrame cos sin sqrt tanf uninit sunTextureID sphereTotalVertices s).viewMatrix
          = createViewMatrix sqrt uninit (6 * cos s.cameraOrbitAngle) s.currentCameraHeight
              (6 * sin s.cameraOrbitAngle) 0 0 0 0 1 0)
      ∧ ((renderFrame cos sin sqrt tanf uninit sunTextureID sphereTotalVertices
            (handleKeyboardInput initialSceneState GLFW_KEY_RIGHT GLFW_PRESS)).cameraX
          = 6 * cos (1 / 10)
        ∧ (handleKeyboardInput (initialSceneState : SceneState K) GLFW_KEY_RIGHT
            GLFW_PRESS).currentCameraHeight = 2
        ∧ (renderFrame cos sin sqrt tanf uninit sunTextureID sphereTotalVertices
            (handleKeyboardInput initialSceneState GLFW_KEY_RIGHT GLFW_PRESS)).cameraZ
          = 6 * sin (1 / 10)
        ∧ (renderFrame cos sin sqrt tanf uninit sunTextureID sphereTotalVertices
            (handleKeyboardInput initialSceneState GLFW_KEY_RIGHT GLFW_PRESS)).viewMatrix
          = createViewMatrix sqrt uninit (6 * cos (1 / 10)) 2 (6 * sin (1 / 10))
              0 0 0 0 1 0) := by
  have hs : handleKeyboardInput (initialSceneState : SceneState K) GLFW_KEY_RIGHT GLFW_PRESS
      = ⟨1 / 10, 2, true, false, 0⟩ := by
    simp [handleKeyboardInput, initialSceneState, GLFW_KEY_LEFT, GLFW_KEY_RIGHT, GLFW_PRESS,
      GLFW_REPEAT]
  refine ⟨⟨?_, ?_, ?_⟩, ?_⟩
  · simp only [renderFrame]
  · simp only [renderFrame]
  · simp only [renderFrame]
  · rw [hs]
    refine ⟨?_, ?_, ?_, ?_⟩ <;> simp only [renderFrame]

end SceneTheorems

section RotationTheorems

theorem createViewMatrix_blockRows (sqrt : ℝ → ℝ) (matrix : Mat4 ℝ)
    (eyeX eyeY eyeZ centerX centerY centerZ upX upY upZ : ℝ) :
    blockRow0 (createViewMatrix sqrt matrix eyeX eyeY eyeZ centerX centerY centerZ upX upY upZ)
        = viewRight sqrt eyeX eyeY eyeZ centerX centerY centerZ upX upY upZ
      ∧ blockRow1
          (createViewMatrix sqrt matrix eyeX eyeY eyeZ centerX centerY centerZ upX upY upZ)
        = viewCorrectedUp sqrt eyeX eyeY eyeZ centerX centerY centerZ upX upY upZ
      ∧ blockRow2
          (createViewMatrix sqrt matrix eyeX eyeY eyeZ centerX centerY centerZ upX upY upZ)
        = (-(viewForward sqrt eyeX eyeY eyeZ centerX centerY centerZ).1,
            -(viewForward sqrt eyeX eyeY eyeZ centerX centerY centerZ).2.1,
            -(viewForward sqrt eyeX eyeY eyeZ centerX centerY centerZ).2.2) := by
  refine ⟨?_, ?_, ?_⟩ <;>
    simp [blockRow0, blockRow1, blockRow2, createViewMatrix_cells]

theorem viewForward_unit (eyeX eyeY eyeZ centerX centerY centerZ : ℝ)
    (hne : (eyeX, eyeY, eyeZ) ≠ (centerX, centerY, centerZ)) :
    dot3 (viewForward Real.sqrt eyeX eyeY eyeZ centerX centerY centerZ)
      (viewForward Real.sqrt eyeX eyeY eyeZ centerX centerY centerZ) = 1 := by
  obtain ⟨hL, hLL⟩ := viewForward_norm eyeX eyeY eyeZ centerX centerY centerZ hne
  unfold dot3 viewForward
  simp only []
  generalize Real.sqrt ((centerX - eyeX) * (centerX - eyeX)
    + (centerY - eyeY) * (centerY - eyeY) + (centerZ - eyeZ) * (centerZ - eyeZ)) = L
    at hL hLL ⊢
  have hL0 : L ≠ 0 := ne_of_gt hL
  field_simp
  linear_combination -hLL

theorem unit_of_div_sqrt (r0 r1 r2 : ℝ) (h : 0 < Real.sqrt (r0 * r0 + r1 * r1 + r2 * r2)) :
    r0 / Real.sqrt (r0 * r0 + r1 * r1 + r2 * r2)
        * (r0 / Real.sqrt (r0 * r0 + r1 * r1 + r2 * r2))
      + r1 / Real.sqrt (r0 * r0 + r1 * r1 + r2 * r2)
        * (r1 / Real.sqrt (r0 * r0 + r1 * r1 + r2 * r2))
      + r2 / Real.sqrt (r0 * r0 + r1 * r1 + r2 * r2)
        * (r2 / Real.sqrt (r0 * r0 + r1 * r1 + r2 * r2)) = 1 := by
  have hs : Real.sqrt (r0 * r0 + r1 * r1 + r2 * r2) * Real.sqrt (r0 * r0 + r1 * r1 + r2 * r2)
      = r0 * r0 + r1 * r1 + r2 * r2 := by
    apply Real.mul_self_sqrt
    nlinarith [mul_self_nonneg r0, mul_self_nonneg r1, mul_self_nonneg r2]
  generalize Real.sqrt (r0 * r0 + r1 * r1 + r2 * r2) = S at h hs ⊢
  have hS : S ≠ 0 := ne_of_gt h
  field_simp
  linear_combination -hs

theorem viewRight_unit (eyeX eyeY eyeZ centerX centerY centerZ upX upY upZ : ℝ)
    (hne : (eyeX, eyeY, eyeZ) ≠ (centerX, centerY, centerZ))
    (hup : ((centerY - eyeY) * upZ - (centerZ - eyeZ) * upY,
             (centerZ - eyeZ) * upX - (centerX - eyeX) * upZ,
             (centerX - eyeX) * upY - (centerY - eyeY) * upX) ≠ ((0 : ℝ), (0 : ℝ), (0 : ℝ))) :
    dot3 (viewRight Real.sqrt eyeX eyeY eyeZ centerX centerY centerZ upX upY upZ)
      (viewRight Real.sqrt eyeX eyeY eyeZ centerX centerY centerZ upX upY upZ) = 1 := by
  have hpos := viewRightLength_pos eyeX eyeY eyeZ centerX centerY centerZ upX upY upZ hne hup
  exact unit_of_div_sqrt _ _ _ hpos

theorem viewRight_dot_viewForward (sqrt : ℝ → ℝ)
    (eyeX eyeY eyeZ centerX centerY centerZ upX upY upZ : ℝ) :
    dot3 (viewRight sqrt eyeX eyeY eyeZ centerX centerY centerZ upX upY upZ)
      (viewForward sqrt eyeX eyeY eyeZ centerX centerY centerZ) = 0 := by
  unfold dot3 viewRight viewForward
  simp only []
  ring

theorem cross3_orthonormal (R F : ℝ × ℝ × ℝ) (hR : dot3 R R = 1) (hF : dot3 F F = 1)
    (hRF : dot3 R F = 0) :
    dot3 (cross3 R F) (cross3 R F) = 1 ∧ dot3 R (cross3 R F) = 0
      ∧ dot3 (cross3 R F) F = 0
      ∧ det3 R (cross3 R F) (-F.1, -F.2.1, -F.2.2) = 1 := by
  obtain ⟨p, q, s⟩ := R
  obtain ⟨a, b, c⟩ := F
  simp only [dot3, cross3, det3] at *
  refine ⟨?_, ?_, ?_, ?_⟩
  · linear_combination (a * a + b * b + c * c) * hR + hF - (p * a + q * b + s * c) * hRF
  · ring
  · ring
  · linear_combination (a * a + b * b + c * c) * hR + hF - (p * a + q * b + s * c) * hRF

/-- C13: for `eye ≠ target` and `up` not parallel to `target − eye` (their cross product is
not zero; `up` need not be orthogonal to the view direction), the rows of the upper-left
3×3 block of the matrix built by `createViewMatrix` are `right`, `correctedUp`, `−forward`;
they are unit vectors, pairwise orthogonal, `correctedUp = right × forward`, and the block
has determinant 1. Over the reals with the exact square root. -/
theorem createViewMatrix_rotation (matrix : Mat4 ℝ)
    (eyeX eyeY eyeZ centerX centerY centerZ upX upY upZ : ℝ)
    (hne : (eyeX, eyeY, eyeZ) ≠ (centerX, centerY, centerZ))
    (hup : ((centerY - eyeY) * upZ - (centerZ - eyeZ) * upY,
             (centerZ - eyeZ) * upX - (centerX - eyeX) * upZ,
             (centerX - eyeX) * upY - (centerY - eyeY) * upX) ≠ ((0 : ℝ), (0 : ℝ), (0 : ℝ))) :
    (blockRow0
          (createViewMatrix Real.sqrt matrix eyeX eyeY eyeZ centerX centerY centerZ upX upY upZ)
        = viewRight Real.sqrt eyeX eyeY eyeZ centerX centerY centerZ upX upY upZ
      ∧ blockRow1
          (createViewMatrix Real.sqrt matrix eyeX eyeY eyeZ centerX centerY centerZ upX upY upZ)
        = viewCorrectedUp Real.sqrt eyeX eyeY eyeZ centerX centerY centerZ upX upY upZ
      ∧ blockRow2
          (createViewMatrix Real.sqrt matrix eyeX eyeY eyeZ centerX centerY centerZ upX upY upZ)
        = (-(viewForward Real.sqrt eyeX eyeY eyeZ centerX centerY centerZ).1,
            -(viewForward Real.sqrt eyeX eyeY eyeZ centerX centerY centerZ).2.1,
            -(viewForward Real.sqrt eyeX eyeY eyeZ centerX centerY centerZ).2.2))
      ∧ (dot3
            (blockRow0 (createViewMatrix Real.sqrt matrix eyeX eyeY eyeZ centerX centerY centerZ
              upX upY upZ))
            (blockRow0 (createViewMatrix Real.sqrt matrix eyeX eyeY eyeZ centerX centerY centerZ
              upX upY upZ)) = 1
        ∧ dot3
            (blockRow1 (createViewMatrix Real.sqrt matrix eyeX eyeY eyeZ centerX centerY centerZ
              upX upY upZ))
            (blockRow1 (createViewMatrix Real.sqrt matrix eyeX eyeY eyeZ centerX centerY centerZ
              upX upY upZ)) = 1
        ∧ dot3
            (blockRow2 (createViewMatrix Real.sqrt matrix eyeX eyeY eyeZ centerX centerY centerZ
              upX upY upZ))
            (blockRow2 (createViewMatrix Real.sqrt matrix eyeX eyeY eyeZ centerX centerY centerZ
              upX upY upZ)) = 1)
      ∧ (dot3
            (blockRow0 (createViewMatrix Real.sqrt matrix eyeX eyeY eyeZ centerX centerY centerZ
              upX upY upZ))
            (blockRow1 (createViewMatrix Real.sqrt matrix eyeX eyeY eyeZ centerX centerY centerZ
              upX upY upZ)) = 0
        ∧ dot3
            (blockRow0 (createViewMatrix Real.sqrt matrix eyeX eyeY eyeZ centerX centerY centerZ
              upX upY upZ))
            (blockRow2 (createViewMatrix Real.sqrt matrix eyeX eyeY eyeZ centerX centerY centerZ
              upX upY upZ)) = 0
        ∧ dot3
            (blockRow1 (createViewMatrix Real.sqrt matrix eyeX eyeY eyeZ centerX centerY centerZ
              upX upY upZ))
            (blockRow2 (createViewMatrix Real.sqrt matrix eyeX eyeY eyeZ centerX centerY centerZ
              upX upY upZ)) = 0)
      ∧ viewCorrectedUp Real.sqrt eyeX eyeY eyeZ centerX centerY centerZ upX upY upZ
          = cross3 (viewRight Real.sqrt eyeX eyeY eyeZ centerX centerY centerZ upX upY upZ)
              (viewForward Real.sqrt eyeX eyeY eyeZ centerX centerY centerZ)
      ∧ det3
          (blockRow0 (createViewMatrix Real.sqrt matrix eyeX eyeY eyeZ centerX centerY centerZ
            upX upY upZ))
          (blockRow1 (createViewMatrix Real.sqrt matrix eyeX eyeY eyeZ centerX centerY centerZ
            upX upY upZ))
          (blockRow2 (createViewMatrix Real.sqrt matrix eyeX eyeY eyeZ centerX centerY centerZ
            upX upY upZ)) = 1 := by
  obtain ⟨h0, h1, h2⟩ := createViewMatrix_blockRows Real.sqrt matrix eyeX eyeY eyeZ
    centerX centerY centerZ upX upY upZ
  have hF := viewForward_unit eyeX eyeY eyeZ centerX centerY centerZ hne
  have hR := viewRight_unit eyeX eyeY eyeZ centerX centerY centerZ upX upY upZ hne hup
  have hRF := viewRight_dot_viewForward Real.sqrt eyeX eyeY eyeZ centerX centerY centerZ
    upX upY upZ
  have hU : viewCorrectedUp Real.sqrt eyeX eyeY eyeZ centerX centerY centerZ upX upY upZ
      = cross3 (viewRight Real.sqrt eyeX eyeY eyeZ centerX centerY centerZ upX upY upZ)
          (viewForward Real.sqrt eyeX eyeY eyeZ centerX centerY centerZ) := rfl
  obtain ⟨hUU, hRU, hUF, hdet⟩ := cross3_orthonormal _ _ hR hF hRF
  rw [h0, h1, h2, hU]
  refine ⟨⟨rfl, rfl, rfl⟩, ⟨hR, hUU, ?_⟩, ⟨hRU, ?_, ?_⟩, rfl, hdet⟩
  · simp only [dot3] at hF ⊢
    linear_combination hF
  · simp only [dot3] at hRF ⊢
    linear_combination -hRF
  · simp only [dot3] at hUF ⊢
    linear_combination -hUF

/-- C13 (witness): eye `(0, 0, 1)`, target `(0, 0, 0)`, and the up vector `(0, 1, 1)`, which
is not orthogonal to the view direction `(0, 0, −1)`. -/
theorem createViewMatrix_rotation_witness :
    ((0 : ℝ), (0 : ℝ), (1 : ℝ)) ≠ ((0 : ℝ), (0 : ℝ), (0 : ℝ))
      ∧ (((0 : ℝ) - 0) * 1 - ((0 : ℝ) - 1) * 1, ((0 : ℝ) - 1) * 0 - ((0 : ℝ) - 0) * 1,
          ((0 : ℝ) - 0) * 1 - ((0 : ℝ) - 0) * 0) ≠ ((0 : ℝ), (0 : ℝ), (0 : ℝ))
      ∧ dot3 (blockRow1 (createViewMatrix Real.sqrt ⟨fun _ => 0⟩ 0 0 1 0 0 0 0 1 1))
          (blockRow1 (createViewMatrix Real.sqrt ⟨fun _ => 0⟩ 0 0 1 0 0 0 0 1 1)) = 1
      ∧ det3 (blockRow0 (createViewMatrix Real.sqrt ⟨fun _ => 0⟩ 0 0 1 0 0 0 0 1 1))
          (blockRow1 (createViewMatrix Real.sqrt ⟨fun _ => 0⟩ 0 0 1 0 0 0 0 1 1))
          (blockRow2 (createViewMatrix Real.sqrt ⟨fun _ => 0⟩ 0 0 1 0 0 0 0 1 1)) = 1 :=
  ⟨by simp, by simp,
    (createViewMatrix_rotation ⟨fun _ => 0⟩ 0 0 1 0 0 0 0 1 1 (by simp) (by simp)).2.1.2.1,
    (createViewMatrix_rotation ⟨fun _ => 0⟩ 0 0 1 0 0 0 0 1 1 (by simp) (by simp)).2.2.2.2⟩

end RotationTheorems

section TriangleTheorems

theorem stepTriangles_eq_spec (n m latitude longitude : Nat) (hm : 1 ≤ m) :
    stepTriangles (m : Int) latitude
        ((latitude : Int) * ((n : Int) + 1) + longitude)
        ((latitude : Int) * ((n : Int) + 1) + (n : Int) + 1 + longitude)
      = (specCellTriangles n m latitude longitude).flatMap triangleCorners := by
  have e1 : ((latitude : Int) ≠ 0) ↔ latitude ≠ 0 := by omega
  have e2 : ((latitude : Int) ≠ (m : Int) - 1) ↔ latitude ≠ m - 1 := by omega
  have c1 : (latitude : Int) * ((n : Int) + 1) + longitude
      = ((latitude * (n + 1) + longitude : Nat) : Int) := by
    push_cast
    ring
  have c2 : (latitude : Int) * ((n : Int) + 1) + (n : Int) + 1 + longitude
      = ((latitude * (n + 1) + longitude + n + 1 : Nat) : Int) := by
    push_cast
    ring
  rw [c1, c2]
  have c3 : ((latitude * (n + 1) + longitude : Nat) : Int) + 1
      = ((latitude * (n + 1) + longitude + 1 : Nat) : Int) := by
    push_cast
    ring
  have c4 : ((latitude * (n + 1) + longitude + n + 1 : Nat) : Int) + 1
      = ((latitude * (n + 1) + longitude + n + 1 + 1 : Nat) : Int) := by
    push_cast
    ring
  unfold stepTriangles specCellTriangles toUnsigned triangleCorners
  simp only [c3, c4, Int.toNat_natCast, e1, e2]
  by_cases h1 : latitude ≠ 0 <;> by_cases h2 : latitude ≠ m - 1 <;>
    simp [h1, h2]

theorem sphereIndices_eq_spec (n m : Nat) (hm : 1 ≤ m) :
    sphereIndices (n : Int) (m : Int) = (specSphereTriangles n m).flatMap triangleCorners := by
  rw [sphereIndices_eq_flatMap]
  unfold specSphereTriangles
  simp only [Int.toNat_natCast, List.flatMap_assoc, stepTriangles_eq_spec n m _ _ hm]

theorem gridRow_mul_add (n latitude k : Nat) (hk : k < n + 1) :
    gridRow n (latitude * (n + 1) + k) = latitude := by
  unfold gridRow
  apply Nat.div_eq_of_lt_le
  · omega
  · rw [Nat.add_mul]
    omega

theorem specSphereTriangles_pole (n m : Nat) (t : Nat × Nat × Nat)
    (ht : t ∈ specSphereTriangles n m) :
    twoCornersInRow n 0 t = false ∧ twoCornersInRow n m t = false := by
  simp only [specSphereTriangles, List.mem_flatMap, List.mem_range] at ht
  obtain ⟨latitude, hla, longitude, hlo, hmem⟩ := ht
  have r1 := gridRow_mul_add n latitude longitude (by omega)
  have r2 := gridRow_mul_add n latitude (longitude + 1) (by omega)
  have r3 := gridRow_mul_add n (latitude + 1) longitude (by omega)
  have r4 := gridRow_mul_add n (latitude + 1) (longitude + 1) (by omega)
  have a2 : latitude * (n + 1) + (longitude + 1) = latitude * (n + 1) + longitude + 1 := by
    ring
  have a3 : (latitude + 1) * (n + 1) + longitude
      = latitude * (n + 1) + longitude + n + 1 := by
    ring
  have a4 : (latitude + 1) * (n + 1) + (longitude + 1)
      = latitude * (n + 1) + longitude + n + 1 + 1 := by
    ring
  rw [a2] at r2
  rw [a3] at r3
  rw [a4] at r4
  unfold specCellTriangles at hmem
  simp only [List.mem_append] at hmem
  rcases hmem with hmem | hmem
  · split at hmem
    · rename_i h1
      simp only [List.mem_singleton] at hmem
      subst hmem
      simp only [twoCornersInRow, r1, r2, r3, Bool.or_eq_false_iff, Bool.and_eq_false_iff,
        beq_eq_false_iff_ne, ne_eq]
      omega
    · simp at hmem
  · split at hmem
    · rename_i h2
      simp only [List.mem_singleton] at hmem
      subst hmem
      simp only [twoCornersInRow, r2, r3, r4, Bool.or_eq_false_iff, Bool.and_eq_false_iff,
        beq_eq_false_iff_ne, ne_eq]
      omega
    · simp at hmem

/-- C14: for `longitudeSegments ≥ 1` and `latitudeSegments ≥ 2`, the index list of
`generateSphereGeometry` is, cell by cell, the upper triangle
`(currentRow, nextRow, currentRow + 1)` exactly when `latitude ≠ 0` and the lower triangle
`(currentRow + 1, nextRow, nextRow + 1)` exactly when `latitude ≠ latitudeSegments − 1`;
no emitted triangle has two corners in grid row 0 or in grid row `latitudeSegments`. -/
theorem sphereIndices_pole_rows (longitudeSegments latitudeSegments : Int)
    (hlon : 1 ≤ longitudeSegments) (hlat : 2 ≤ latitudeSegments) :
    sphereIndices longitudeSegments latitudeSegments
        = (specSphereTriangles longitudeSegments.toNat latitudeSegments.toNat).flatMap
            triangleCorners
      ∧ ∀ t ∈ specSphereTriangles longitudeSegments.toNat latitudeSegments.toNat,
          twoCornersInRow longitudeSegments.toNat 0 t = false
            ∧ twoCornersInRow longitudeSegments.toNat latitudeSegments.toNat t = false := by
  lift longitudeSegments to ℕ using (by omega) with n
  lift latitudeSegments to ℕ using (by omega) with m
  simp only [Int.toNat_natCast]
  exact ⟨sphereIndices_eq_spec n m (by omega), specSphereTriangles_pole n m⟩

/-- C14 (witness): 4 longitude segments, 2 latitude segments. -/
theorem sphereIndices_pole_rows_witness :
    (1 : Int) ≤ 4 ∧ (2 : Int) ≤ 2
      ∧ (sphereIndices 4 2
          = (specSphereTriangles (4 : Int).toNat (2 : Int).toNat).flatMap triangleCorners
        ∧ ∀ t ∈ specSphereTriangles (4 : Int).toNat (2 : Int).toNat,
            twoCornersInRow (4 : Int).toNat 0 t = false
              ∧ twoCornersInRow (4 : Int).toNat (2 : Int).toNat t = false) :=
  ⟨by decide, by decide, sphereIndices_pole_rows 4 2 (by decide) (by decide)⟩

end TriangleTheorems

section IndexBoundTheorems

theorem sphereGridVertices_length {K : Type} [Field K] (cosf sinf : K → K) (radius : K)
    (n m : Nat) :
    (sphereGridVertices cosf sinf radius (n : Int) (m : Int)).length
      = 8 * ((m + 1) * (n + 1)) := by
  rw [sphereGridVertices_eq_flatten,
    flatten_chunk_length _ (gridChunks_length_eight cosf sinf radius n m),
    gridChunks_length]

/-- C15: for `longitudeSegments ≥ 1` and `latitudeSegments ≥ 1`, every index in the
triangle-index list of `generateSphereGeometry` is strictly less than
`(latitudeSegments + 1) × (longitudeSegments + 1)`, the number of grid vertices, so the floats
`[index * 8, (index + 1) * 8)` that the expansion copies lie inside the grid buffer. -/
theorem sphereIndices_in_bounds {K : Type} [Field K] (cosf sinf : K → K) (radius : K)
    (longitudeSegments latitudeSegments : Int) (index : Nat)
    (hlon : 1 ≤ longitudeSegments) (hlat : 1 ≤ latitudeSegments)
    (hindex : index ∈ sphereIndices longitudeSegments latitudeSegments) :
    (index : Int) < (latitudeSegments + 1) * (longitudeSegments + 1)
      ∧ (index + 1) * 8
          ≤ (sphereGridVertices cosf sinf radius longitudeSegments latitudeSegments).length
      ∧ (((sphereGridVertices cosf sinf radius longitudeSegments latitudeSegments).drop
            (index * 8)).take 8).length = 8 := by
  lift longitudeSegments to ℕ using (by omega) with n
  lift latitudeSegments to ℕ using (by omega) with m
  have hlt := sphereIndices_lt n m index hindex
  have hlen := sphereGridVertices_length cosf sinf radius n m
  refine ⟨?_, ?_, ?_⟩
  · exact_mod_cast hlt
  · rw [hlen]
    omega
  · rw [List.length_take, List.length_drop, hlen]
    omega

/-- C15 (witness): 4 longitude segments, 2 latitude segments, the index 13. -/
theorem sphereIndices_in_bounds_witness :
    (1 : Int) ≤ 4 ∧ (1 : Int) ≤ 2 ∧ 13 ∈ sphereIndices 4 2
      ∧ (((13 : Nat) : Int) < ((2 : Int) + 1) * ((4 : Int) + 1)
        ∧ (13 + 1) * 8
            ≤ (sphereGridVertices (fun x : ℚ => x) (fun x : ℚ => x) 1 4 2).length
        ∧ (((sphereGridVertices (fun x : ℚ => x) (fun x : ℚ => x) 1 4 2).drop
              (13 * 8)).take 8).length = 8) :=
  ⟨by decide, by decide, by decide,
    sphereIndices_in_bounds (fun x : ℚ => x) (fun x : ℚ => x) 1 4 2 13 (by decide) (by decide)
      (by decide)⟩

end IndexBoundTheorems

section StartupTheorems

/-- C11 (the code at the failing input): when the image fails to load, start-up logs
"using fallback colors", enters the frame loop with `sunTextureID = 0`, and in every frame
the sphere draw sets `isRenderingSphere`, binds texture 0, and its fragment colour is the
texture sample `texture(surfaceTexture, textureCoordinates)` whatever the other inputs are:
the sphere is shaded by the texture-sampling path, not by a flat fallback colour. -/
theorem sphere_samples_texture_without_fallback {K : Type} [LinearOrderedField K]
    (vertexShaderOk fragmentShaderOk linkOk : Bool) (generatedTexture : Nat)
    (cos sin sqrt tanf : K → K) (uninit : Mat4 K) (sphereTotalVertices : Int)
    (s : SceneState K) (texture : K × K → K × K × K × K) (i : FragmentInput K) :
    (∃ diagnostics,
        mainStartup ⟨true, true, true, vertexShaderOk, fragmentShaderOk, linkOk, false,
            generatedTexture⟩
          = StartupResult.enteredFrameLoop 0 diagnostics
        ∧ Diagnostic.textureLoadingFailedUsingFallbackColors ∈ diagnostics)
      ∧ (renderFrame cos sin sqrt tanf uninit 0 sphereTotalVertices
            s).sphereDraw.isRenderingSphere = true
      ∧ (renderFrame cos sin sqrt tanf uninit 0 sphereTotalVertices
            s).sphereDraw.boundTexture = some 0
      ∧ fragmentShaderMain sqrt texture
          (drawUniforms (renderFrame cos sin sqrt tanf uninit 0 sphereTotalVertices s)
            (renderFrame cos sin sqrt tanf uninit 0 sphereTotalVertices s).sphereDraw) i
          = texture i.textureCoordinates := by
  have hs : (renderFrame cos sin sqrt tanf uninit 0 sphereTotalVertices
      s).sphereDraw.isRenderingSphere = true := by
    simp only [renderFrame]
  refine ⟨⟨_, rfl, ?_⟩, hs, ?_, ?_⟩
  · simp [loadTextureFromFile]
  · simp only [renderFrame]
  · simp only [fragmentShaderMain, drawUniforms, hs, if_true]

/-- C12 (counterexample): when only the vertex shader fails to compile, start-up logs the
failure and enters the frame loop; it does not exit. -/
theorem mainStartup_shader_failure_enters_loop :
    mainStartup ⟨true, true, true, false, true, true, true, 1⟩
        = StartupResult.enteredFrameLoop 1 [Diagnostic.shaderCompilationFailed]
      ∧ ¬ ∃ status diagnostics,
          mainStartup ⟨true, true, true, false, true, true, true, 1⟩
            = StartupResult.exited status diagnostics := by
  have h : mainStartup ⟨true, true, true, false, true, true, true, 1⟩
      = StartupResult.enteredFrameLoop 1 [Diagnostic.shaderCompilationFailed] := by
    decide
  refine ⟨h, ?_⟩
  rintro ⟨status, diagnostics, h2⟩
  rw [h] at h2
  cases h2

/-- C12 (amended): if GLFW initialisation, window creation or GLEW initialisation fails,
start-up emits one diagnostic and exits with status `-1` without entering the frame loop;
otherwise it enters the frame loop, and a failed shader compile or a failed program link is
only logged: its diagnostic is emitted exactly when that step failed. -/
theorem mainStartup_amended (windowOk glewOk vertexShaderOk fragmentShaderOk linkOk
    imageLoaded : Bool) (generatedTexture : Nat) :
    mainStartup ⟨false, windowOk, glewOk, vertexShaderOk, fragmentShaderOk, linkOk,
          imageLoaded, generatedTexture⟩
        = StartupResult.exited (-1) [Diagnostic.glfwInitializationFailed]
      ∧ mainStartup ⟨true, false, glewOk, vertexShaderOk, fragmentShaderOk, linkOk,
          imageLoaded, generatedTexture⟩
        = StartupResult.exited (-1) [Diagnostic.windowCreationFailed]
      ∧ mainStartup ⟨true, true, false, vertexShaderOk, fragmentShaderOk, linkOk,
          imageLoaded, generatedTexture⟩
        = StartupResult.exited (-1) [Diagnostic.glewInitializationFailed]
      ∧ ∃ sunTextureID diagnostics,
          mainStartup ⟨true, true, true, vertexShaderOk, fragmentShaderOk, linkOk,
              imageLoaded, generatedTexture⟩
            = StartupResult.enteredFrameLoop sunTextureID diagnostics
          ∧ (Diagnostic.shaderCompilationFailed ∈ diagnostics
              ↔ (vertexShaderOk = false ∨ fragmentShaderOk = false))
          ∧ (Diagnostic.shaderProgramLinkingFailed ∈ diagnostics ↔ linkOk = false) := by
  refine ⟨rfl, rfl, rfl, _, _, rfl, ?_, ?_⟩
  · cases vertexShaderOk <;> cases fragmentShaderOk <;> cases linkOk <;> cases imageLoaded <;>
      simp [initializeShaderProgram, compileGLShader, loadTextureFromFile]
  · cases vertexShaderOk <;> cases fragmentShaderOk <;> cases linkOk <;> cases imageLoaded <;>
      simp [initializeShaderProgram, compileGLShader, loadTextureFromFile]

end StartupTheorems

section BezierTheorems

theorem dist_lt_radius_iff (a p : BZpoint ℝ) :
    a.dist Real.sqrt p < PT_RADIUS
      ↔ (a.x - p.x) * (a.x - p.x) + (a.y - p.y) * (a.y - p.y) < 1 / 400 := by
  unfold BZpoint.dist PT_RADIUS
  rw [Real.sqrt_lt' (by norm_num)]
  norm_num

theorem firstNear_initial :
    firstNear Real.sqrt (⟨600 / WIN_W * 2 - 1, 1 - 280 / WIN_H * 2⟩ : BZpoint ℝ)
      (initialEditorState : EditorState ℝ).pts 0 = some 3 := by
  simp only [initialEditorState, firstNear, dist_lt_radius_iff, WIN_W, WIN_H]
  norm_num

/-- C16 (the code at the failing input): a left press on control point 3 (cursor
`(600, 280)`) followed, before the release, by a right press at the same cursor erases
point 3 and leaves `activeIdx = 3` with only 3 points: `activeIdx` is neither `-1` nor a
valid index, and a following `mouseMove` takes the branch that writes `pts[3]`. -/
theorem runEditor_activeIdx_out_of_bounds :
    (runEditor Real.sqrt (initialEditorState : EditorState ℝ)
        [EditorEvent.button 600 280 GLFW_MOUSE_BUTTON_LEFT GLFW_PRESS,
          EditorEvent.button 600 280 GLFW_MOUSE_BUTTON_RIGHT GLFW_PRESS]).activeIdx = 3
      ∧ (runEditor Real.sqrt (initialEditorState : EditorState ℝ)
        [EditorEvent.button 600 280 GLFW_MOUSE_BUTTON_LEFT GLFW_PRESS,
          EditorEvent.button 600 280 GLFW_MOUSE_BUTTON_RIGHT GLFW_PRESS]).pts.length = 3
      ∧ ¬ activeIdxValid (runEditor Real.sqrt (initialEditorState : EditorState ℝ)
        [EditorEvent.button 600 280 GLFW_MOUSE_BUTTON_LEFT GLFW_PRESS,
          EditorEvent.button 600 280 GLFW_MOUSE_BUTTON_RIGHT GLFW_PRESS])
      ∧ (runEditor Real.sqrt (initialEditorState : EditorState ℝ)
        [EditorEvent.button 600 280 GLFW_MOUSE_BUTTON_LEFT GLFW_PRESS,
          EditorEvent.button 600 280 GLFW_MOUSE_BUTTON_RIGHT GLFW_PRESS]).activeIdx ≥ 0 := by
  have h1 : mouseBtn Real.sqrt (initialEditorState : EditorState ℝ) 600 280
      GLFW_MOUSE_BUTTON_LEFT GLFW_PRESS
      = { pts := (initialEditorState : EditorState ℝ).pts, activeIdx := 3 } := by
    unfold mouseBtn
    simp only [firstNear_initial]
    simp [GLFW_MOUSE_BUTTON_LEFT, GLFW_PRESS]
  have h2 : mouseBtn Real.sqrt
      ({ pts := (initialEditorState : EditorState ℝ).pts, activeIdx := 3 } : EditorState ℝ)
      600 280 GLFW_MOUSE_BUTTON_RIGHT GLFW_PRESS
      = { pts := (initialEditorState : EditorState ℝ).pts.eraseIdx 3, activeIdx := 3 } := by
    unfold mouseBtn
    simp only [firstNear_initial]
    simp [GLFW_MOUSE_BUTTON_LEFT, GLFW_MOUSE_BUTTON_RIGHT, GLFW_PRESS]
  have h : runEditor Real.sqrt (initialEditorState : EditorState ℝ)
      [EditorEvent.button 600 280 GLFW_MOUSE_BUTTON_LEFT GLFW_PRESS,
        EditorEvent.button 600 280 GLFW_MOUSE_BUTTON_RIGHT GLFW_PRESS]
      = { pts := (initialEditorState : EditorState ℝ).pts.eraseIdx 3, activeIdx := 3 } := by
    simp only [runEditor, List.foldl_cons, List.foldl_nil, editorStep, h1, h2]
  rw [h]
  refine ⟨rfl, ?_, ?_, ?_⟩
  · simp [initialEditorState]
  · simp [activeIdxValid, initialEditorState]
  · norm_num

end BezierTheorems

end CompGraphics
